import Mathlib

/-!
# Chatbot payload classification and normalisation

A shallow embedding of the response handling of `src/components/Chatbot.jsx`
(`handleSendMessage`, lines 36-188): the helpers `isCosmicPayload`, `coerceNum`,
`isFiniteNum`, `isEarthPayload`, `normalizeEarthPayload`, `tryParse` and the
composition of the AI message.

JavaScript values are modelled by `JsVal`.  Operations that can raise a
`TypeError` in JavaScript (the `in` operator, property reads) return
`Except JsError _`, so that "raises no error" is a statement about the model.
-/

namespace Chatbot

/-! ## Numbers

A JavaScript number is an IEEE-754 double.  A finite double is `± mant * 2 ^ exp`;
the canonical form used by `StringToNumber` has `mant` odd, or `mant = 0` and
`exp = 0`.  For instance `5.5` is `fin false 11 (-1)` and `3` is `fin false 3 0`. -/

/-- A JavaScript number: `NaN`, an infinity, or a finite dyadic `± mant * 2 ^ exp`. -/
inductive JsNum where
  | nan : JsNum
  | inf (neg : Bool) : JsNum
  | fin (neg : Bool) (mant : Nat) (exp : Int) : JsNum
  deriving DecidableEq, Repr

namespace JsNum

/-- The number `+0`. -/
def zero : JsNum := fin false 0 0

/-- The global `isFinite` on a number: neither `NaN` nor an infinity. -/
def isFinite : JsNum → Bool
  | fin _ _ _ => true
  | _ => false

/-- The value of `ToBoolean` on a number: false for `NaN`, `+0` and `-0`. -/
def toBoolean : JsNum → Bool
  | nan => false
  | inf _ => true
  | fin _ m _ => m != 0

/-- Remove the factors of two of a mantissa, raising the exponent accordingly. -/
def stripTwos : Nat → Nat → Int → Nat × Int
  | 0, m, e => (m, e)
  | fuel + 1, m, e =>
    if m % 2 = 0 ∧ m ≠ 0 then stripTwos fuel (m / 2) (e + 1) else (m, e)

/-- The canonical finite number `± m * 2 ^ e` (odd mantissa, or zero). -/
def canon (neg : Bool) (m : Nat) (e : Int) : JsNum :=
  if m = 0 then fin neg 0 0
  else
    let r := stripTwos 64 m e
    fin neg r.1 r.2

/-- The position of the leading bit, `⌊log2 n⌋` (and `0` for `n = 0`), by halving. -/
def log2Aux : Nat → Nat → Nat
  | 0, _ => 0
  | fuel + 1, n => if 2 ≤ n then log2Aux fuel (n / 2) + 1 else 0

/-- The double nearest to `± n / d` (`n, d > 0`), ties to even; overflow gives an
infinity and underflow a zero. -/
def roundRatio (neg : Bool) (n d : Nat) : JsNum :=
  let e0 : Int := (log2Aux n n : Int) - (log2Aux d d : Int)
  -- e = ⌊log2 (n / d)⌋
  let e : Int := if d * 2 ^ e0.toNat ≤ n * 2 ^ (-e0).toNat then e0 else e0 - 1
  -- exponent of the unit in the last place (normal or subnormal)
  let s : Int := max e (-1022) - 52
  let n1 := n * 2 ^ (-s).toNat
  let d1 := d * 2 ^ s.toNat
  let q := n1 / d1
  let r := n1 % d1
  let m := if d1 < 2 * r ∨ (2 * r = d1 ∧ q % 2 = 1) then q + 1 else q
  if 971 < s ∨ (s = 971 ∧ m = 2 ^ 53) then inf neg else canon neg m s

/-- The double nearest to `± a * 10 ^ dexp`. -/
def roundDecimal (neg : Bool) (a : Nat) (dexp : Int) : JsNum :=
  if a = 0 then fin neg 0 0
  else if 0 ≤ dexp then roundRatio neg (a * 10 ^ dexp.toNat) 1
  else roundRatio neg a (10 ^ (-dexp).toNat)

/-- The double nearest to the natural number `a`. -/
def ofNat (a : Nat) : JsNum := roundDecimal false a 0

end JsNum

/-! ## Strings: `trim` and `Number(string)` -/

/-- The code points removed by `String.prototype.trim` (WhiteSpace and LineTerminator). -/
def isJsWhitespace (c : Char) : Bool :=
  let n := c.toNat
  n = 0x09 || n = 0x0A || n = 0x0B || n = 0x0C || n = 0x0D || n = 0x20 || n = 0xA0 ||
  n = 0x1680 || (0x2000 ≤ n && n ≤ 0x200A) || n = 0x2028 || n = 0x2029 || n = 0x202F ||
  n = 0x205F || n = 0x3000 || n = 0xFEFF

/-- The characters of `s.trim()`. -/
def trimChars (cs : List Char) : List Char :=
  ((cs.dropWhile isJsWhitespace).reverse.dropWhile isJsWhitespace).reverse

/-- The method `String.prototype.trim`. -/
def jsTrim (s : String) : String := String.mk (trimChars s.data)

/-- The value of a digit in the given radix, if the character is one. -/
def digitValue (radix : Nat) (c : Char) : Option Nat :=
  let n := c.toNat
  let v : Option Nat :=
    if 48 ≤ n ∧ n ≤ 57 then some (n - 48)
    else if 97 ≤ n ∧ n ≤ 102 then some (n - 87)
    else if 65 ≤ n ∧ n ≤ 70 then some (n - 55)
    else none
  match v with
  | some d => if d < radix then some d else none
  | none => none

/-- The value of a non-empty digit sequence in the given radix. -/
def digitsValue (radix : Nat) : List Char → Nat → Option Nat
  | [], acc => some acc
  | c :: cs, acc =>
    match digitValue radix c with
    | some d => digitsValue radix cs (acc * radix + d)
    | none => none

/-- A non-empty sequence of digits in the given radix, as a number. -/
def parseDigits (radix : Nat) (cs : List Char) : Option Nat :=
  if cs = [] then none else digitsValue radix cs 0

/-- Whether a character is a decimal digit. -/
def isDecDigit (c : Char) : Bool := 48 ≤ c.toNat && c.toNat ≤ 57

/-- The exponent part `e[+-]ddd` of a decimal literal; the empty suffix is exponent 0. -/
def parseExponent : List Char → Option Int
  | [] => some 0
  | c :: rest =>
    if c = 'e' ∨ c = 'E' then
      match rest with
      | '+' :: ds => (parseDigits 10 ds).map Int.ofNat
      | '-' :: ds => (parseDigits 10 ds).map (fun n => - Int.ofNat n)
      | ds => (parseDigits 10 ds).map Int.ofNat
    else none

/-- The grammar production StrUnsignedDecimalLiteral other than `Infinity`:
`ddd`, `ddd.`, `ddd.ddd`, `.ddd`, each with an optional exponent part. -/
def parseUnsignedDecimal (neg : Bool) (cs : List Char) : Option JsNum :=
  let intPart := cs.takeWhile isDecDigit
  let rest := cs.dropWhile isDecDigit
  let fracAndExp : Option (List Char × List Char) :=
    match rest with
    | '.' :: r => some (r.takeWhile isDecDigit, r.dropWhile isDecDigit)
    | r => if intPart = [] then none else some ([], r)
  match fracAndExp with
  | none => none
  | some (fracPart, expPart) =>
    if intPart = [] ∧ fracPart = [] then none
    else
      match digitsValue 10 (intPart ++ fracPart) 0, parseExponent expPart with
      | some a, some e => some (JsNum.roundDecimal neg a (e - fracPart.length))
      | _, _ => none

/-- The grammar production StrDecimalLiteral: an optional sign, then `Infinity` or an
unsigned decimal literal. -/
def parseStrDecimal (cs : List Char) : Option JsNum :=
  let signed : Bool × List Char :=
    match cs with
    | '+' :: r => (false, r)
    | '-' :: r => (true, r)
    | r => (false, r)
  if signed.2 = "Infinity".data then some (JsNum.inf signed.1)
  else parseUnsignedDecimal signed.1 signed.2

/-- The grammar production StrNumericLiteral: a binary, octal or hexadecimal integer
literal, or a decimal literal. -/
def parseStrNumeric (cs : List Char) : Option JsNum :=
  match cs with
  | '0' :: p :: ds =>
    if p = 'x' ∨ p = 'X' then (parseDigits 16 ds).map JsNum.ofNat
    else if p = 'o' ∨ p = 'O' then (parseDigits 8 ds).map JsNum.ofNat
    else if p = 'b' ∨ p = 'B' then (parseDigits 2 ds).map JsNum.ofNat
    else parseStrDecimal cs
  | _ => parseStrDecimal cs

/-- The conversion `Number(s)` of a string (StringToNumber): `+0` for a string that is
empty after trimming, the value of a numeric literal, and `NaN` otherwise. -/
def stringToNumber (s : String) : JsNum :=
  let cs := trimChars s.data
  if cs = [] then JsNum.zero
  else
    match parseStrNumeric cs with
    | some n => n
    | none => JsNum.nan

/-! ## Values -/

/-- An error raised by a JavaScript operation. -/
inductive JsError where
  | typeError : JsError
  deriving DecidableEq, Repr

/-- A JavaScript value: the JSON values, `undefined`, and the non-finite numbers.  An
object is its list of own properties in insertion order; a read takes the first
binding of a name. -/
inductive JsVal where
  | undefined : JsVal
  | null : JsVal
  | bool (b : Bool) : JsVal
  | num (n : JsNum) : JsVal
  | str (s : String) : JsVal
  | arr (items : List JsVal) : JsVal
  | obj (props : List (String × JsVal)) : JsVal

namespace JsVal

/-- The operator `typeof`. -/
def typeOf : JsVal → String
  | undefined => "undefined"
  | null => "object"
  | bool _ => "boolean"
  | num _ => "number"
  | str _ => "string"
  | arr _ => "object"
  | obj _ => "object"

/-- The conversion `ToBoolean`: which values count as true in `!v`, `a || b`, `c ? x : y`. -/
def truthy : JsVal → Bool
  | undefined => false
  | null => false
  | bool b => b
  | num n => n.toBoolean
  | str s => s != ""
  | arr _ => true
  | obj _ => true

/-- Whether a value is `null` or `undefined` (the test of `??` and `?.`). -/
def isNullish : JsVal → Bool
  | undefined => true
  | null => true
  | _ => false

/-- The function `Array.isArray`. -/
def isArray : JsVal → Bool
  | arr _ => true
  | _ => false

/-- The operator `a || b` on already evaluated operands. -/
def or (a b : JsVal) : JsVal := if a.truthy then a else b

/-- The canonical array index that a property name denotes, if any. -/
def arrayIndex (k : String) : Option Nat :=
  match k.data with
  | ['0'] => some 0
  | '0' :: _ => none
  | cs => parseDigits 10 cs

/-- The own property `k` of an array: an element or `length`. -/
def arrayProp (items : List JsVal) (k : String) : JsVal :=
  if k = "length" then num (JsNum.ofNat items.length)
  else
    match arrayIndex k with
    | some i => items.getD i undefined
    | none => undefined

/-- The property read `v.k` (`v[k]`).  Reading a property of `null` or `undefined`
raises a `TypeError`; a name that is not an own property reads as `undefined`.
Inherited methods and the own properties of string primitives (`length`, indices) are
not modelled: the source reads only the names `response`, `message`, `title`, `date`,
`activeBaseLayer`, `activeOverlays`, `view`, `context`, `center`, `zoom`, `lat`, `lng`
and `lon`, none of which is one of them. -/
def getProp (v : JsVal) (k : String) : Except JsError JsVal :=
  match v with
  | undefined => .error .typeError
  | null => .error .typeError
  | obj props => .ok ((props.lookup k).getD undefined)
  | arr items => .ok (arrayProp items k)
  | _ => .ok undefined

/-- The optional read `v?.k`: `undefined` when `v` is `null` or `undefined`. -/
def optProp (v : JsVal) (k : String) : Except JsError JsVal :=
  if v.isNullish then .ok undefined else getProp v k

/-- The operator `k in v`.  It raises a `TypeError` unless `v` is an object; for an
object it tells whether `k` is a property (own properties only, see `getProp`). -/
def hasProperty (k : String) (v : JsVal) : Except JsError Bool :=
  match v with
  | obj props => .ok (props.any (fun p => p.1 == k))
  | arr items =>
    .ok (k == "length" ||
      (match arrayIndex k with
       | some i => decide (i < items.length)
       | none => false))
  | _ => .error .typeError

end JsVal

open JsVal

/-- The method `names.every(p)` for a test that may raise: stops at the first name
that fails the test. -/
def everyKey (p : String → Except JsError Bool) : List String → Except JsError Bool
  | [] => .ok true
  | k :: ks =>
    match p k with
    | .ok true => everyKey p ks
    | .ok false => .ok false
    | .error e => .error e

/-- The method `candidates.find(p)` for a test that may raise: the first element that
passes, `undefined` when none does. -/
def findFirst (p : JsVal → Except JsError Bool) : List JsVal → Except JsError JsVal
  | [] => .ok undefined
  | c :: cs =>
    match p c with
    | .ok true => .ok c
    | .ok false => findFirst p cs
    | .error e => .error e

/-! ## The helpers of `handleSendMessage` (Chatbot.jsx, lines 75-130) -/

/-- The keys `required` of `isCosmicPayload` (lines 77-86). -/
def cosmicRequired : List String :=
  ["title", "description", "imageUrl", "thumbnailUrl", "category", "releaseDate",
   "credits", "relevanceScore"]

/-- The function `isCosmicPayload` (lines 75-88). -/
def isCosmicPayload (obj : JsVal) : Except JsError Bool :=
  if !obj.truthy || obj.typeOf != "object" then .ok false
  else everyKey (fun k => hasProperty k obj) cosmicRequired

/-- The function `coerceNum` (line 89). -/
def coerceNum (v : JsVal) : JsVal :=
  match v with
  | str s => if jsTrim s = "" then num JsNum.nan else num (stringToNumber s)
  | _ => v

/-- The function `isFiniteNum` (line 90). -/
def isFiniteNum (n : JsVal) : Bool :=
  match n with
  | num x => x.isFinite
  | _ => false

/-- The base keys of `isEarthPayload` (line 93). -/
def earthBaseKeys : List String :=
  ["date", "activeBaseLayer", "activeOverlays", "view", "context"]

/-- The function `isEarthPayload` (lines 91-104). -/
def isEarthPayload (obj : JsVal) : Except JsError Bool := do
  if !obj.truthy || obj.typeOf != "object" then return false
  let baseKeysOk ← everyKey (fun k => hasProperty k obj) earthBaseKeys
  if !baseKeysOk then return false
  let overlaysOk := (← getProp obj "activeOverlays").isArray
  let view := (← getProp obj "view").or (JsVal.obj [])
  let center := (← getProp view "center").or (JsVal.obj [])
  let lat := coerceNum (← getProp center "lat")
  let lngRaw ← getProp center "lng"
  let lng := coerceNum (← if lngRaw.isNullish then getProp center "lon" else pure lngRaw)
  let zoom := coerceNum (← getProp view "zoom")
  let numbersOk := isFiniteNum lat && isFiniteNum lng && isFiniteNum zoom
  return overlaysOk && numbersOk

/-- The function `normalizeEarthPayload` (lines 105-123). -/
def normalizeEarthPayload (obj : JsVal) : Except JsError JsVal := do
  if !obj.truthy || obj.typeOf != "object" then return JsVal.null
  let v := (← getProp obj "view").or (JsVal.obj [])
  let c := (← getProp v "center").or (JsVal.obj [])
  let lat := coerceNum (← getProp c "lat")
  let lngRaw ← getProp c "lng"
  let lng := coerceNum (← if lngRaw.isNullish then getProp c "lon" else pure lngRaw)
  let zoom := coerceNum (← getProp v "zoom")
  let date ← getProp obj "date"
  let activeBaseLayer ← getProp obj "activeBaseLayer"
  let overlays ← getProp obj "activeOverlays"
  let context ← getProp obj "context"
  return JsVal.obj [
    ("date", date),
    ("activeBaseLayer", activeBaseLayer),
    ("activeOverlays", if overlays.isArray then overlays else JsVal.arr []),
    ("view", JsVal.obj [
      ("center", JsVal.obj [
        ("lat", if isFiniteNum lat then lat else num (JsNum.ofNat 0)),
        ("lng", if isFiniteNum lng then lng else num (JsNum.ofNat 0))]),
      ("zoom", if isFiniteNum zoom then zoom else num (JsNum.ofNat 3))]),
    ("context", if context.isNullish then str "" else context)]

/-- The function `tryParse` (lines 124-130).  `jsonParse` stands for `JSON.parse`, with
`none` for a raised `SyntaxError`. -/
def tryParse (jsonParse : String → Option JsVal) (val : JsVal) : JsVal :=
  match val with
  | str s =>
    match jsonParse s with
    | some v => v
    | none => JsVal.null
  | arr items => arr items
  | obj props => obj props
  | _ => JsVal.null

/-! ## Composition of the AI message (Chatbot.jsx, lines 132-187) -/

/-- A conversation message.  The optional fields `isError`, `payloadType` and
`payload` are `none` when the object literal does not have them. -/
structure Message where
  id : Nat
  text : JsVal
  sender : String
  timestamp : String
  mode : String
  isError : Option Bool
  payloadType : Option String
  payload : Option JsVal

/-- The test `(c) => c && isCosmicPayload(c)` of line 137. -/
def cosmicTest (c : JsVal) : Except JsError Bool :=
  if c.truthy then isCosmicPayload c else .ok false

/-- The test `(c) => c && isEarthPayload(c)` of line 139. -/
def earthTest (c : JsVal) : Except JsError Bool :=
  if c.truthy then isEarthPayload c else .ok false

/-- The candidates `candidate1`, `candidate2` of lines 134-135. -/
def parsedFields (jsonParse : String → Option JsVal) (data : JsVal) :
    Except JsError (JsVal × JsVal) := do
  let candidate1 := tryParse jsonParse (← optProp data "response")
  let candidate2 := tryParse jsonParse (← optProp data "message")
  return (candidate1, candidate2)

/-- The value `directObj` of line 133. -/
def directObj (data : JsVal) : JsVal :=
  if data.typeOf = "object" then data else JsVal.null

/-- The value `parsedCosmic` of lines 133-137. -/
def parsedCosmic (jsonParse : String → Option JsVal) (data : JsVal) :
    Except JsError JsVal := do
  let (candidate1, candidate2) ← parsedFields jsonParse data
  let candidate3 := if (← cosmicTest (directObj data)) then directObj data else JsVal.null
  return (← findFirst cosmicTest [candidate1, candidate2, candidate3]).or JsVal.null

/-- The value `parsedEarthRaw` of lines 138-139. -/
def parsedEarthRaw (jsonParse : String → Option JsVal) (data : JsVal) :
    Except JsError JsVal := do
  let (candidate1, candidate2) ← parsedFields jsonParse data
  let candidate4 := if (← earthTest (directObj data)) then directObj data else JsVal.null
  return (← findFirst earthTest [candidate1, candidate2, candidate4]).or JsVal.null

/-- The value `parsedEarth` of line 140. -/
def parsedEarth (jsonParse : String → Option JsVal) (data : JsVal) :
    Except JsError JsVal := do
  let raw ← parsedEarthRaw jsonParse data
  if raw.truthy then normalizeEarthPayload raw else return JsVal.null

/-- The expression `data.response || data.message || "Sorry, ..."` of line 166. -/
def plainText (data : JsVal) : Except JsError JsVal := do
  let r ← getProp data "response"
  if r.truthy then return r
  let m ← getProp data "message"
  return m.or (str "Sorry, I couldn't generate a response.")

/-- The message `aiMessage` of lines 132-171 for the decoded body `data`; `now` and
`iso` are the readings `Date.now()` and `new Date().toISOString()`. -/
def composeAiMessage (jsonParse : String → Option JsVal) (now : Nat) (iso mode : String)
    (data : JsVal) : Except JsError Message := do
  let cosmic ← parsedCosmic jsonParse data
  let earth ← parsedEarth jsonParse data
  if cosmic.truthy then
    return { id := now + 1
             text := (← getProp cosmic "title").or (str "Hubble image result")
             sender := "ai", timestamp := iso, mode := mode
             isError := none, payloadType := some "cosmic", payload := some cosmic }
  else if earth.truthy then
    return { id := now + 1
             text := (← getProp earth "context").or (str "Earth visualization configuration")
             sender := "ai", timestamp := iso, mode := mode
             isError := none, payloadType := some "earth", payload := some earth }
  else
    return { id := now + 1
             text := (← plainText data)
             sender := "ai", timestamp := iso, mode := mode
             isError := none, payloadType := none, payload := none }

/-- The message `errorMessage` of the `catch` block (lines 176-183). -/
def errorMessage (now : Nat) (iso mode : String) : Message :=
  { id := now + 1
    text := str "Sorry, I encountered an error. Please try again."
    sender := "ai", timestamp := iso, mode := mode
    isError := some true, payloadType := none, payload := none }

/-- The message appended for a decoded body `data` (lines 132-184): the composed
message, or the error message when composition raises. -/
def replyMessage (jsonParse : String → Option JsVal) (now : Nat) (iso mode : String)
    (data : JsVal) : Message :=
  match composeAiMessage jsonParse now iso mode data with
  | .ok m => m
  | .error _ => errorMessage now iso mode

/-! ## Vocabulary of the specification

The specification speaks of "a non-null object", of an object "containing a key" and
of the value "at" `view.center.lat`.  These total readings are compared with the
partial operations of the code below. -/

namespace JsVal

/-- A non-null object: `typeof v === "object"` and `v !== null`. -/
def isObject : JsVal → Bool
  | arr _ => true
  | obj _ => true
  | _ => false

/-- Whether a value is an object that contains the key `k`. -/
def hasKey (v : JsVal) (k : String) : Bool :=
  match v with
  | obj props => props.any (fun p => p.1 == k)
  | arr items =>
    k == "length" ||
      (match arrayIndex k with
       | some i => decide (i < items.length)
       | none => false)
  | _ => false

/-- The value at key `k` of `v`, `undefined` when there is none (the read `v?.k`). -/
def field (v : JsVal) (k : String) : JsVal :=
  match v with
  | obj props => (props.lookup k).getD undefined
  | arr items => arrayProp items k
  | _ => undefined

/-- The value at `view.center.lat`. -/
def earthLat (v : JsVal) : JsVal := ((v.field "view").field "center").field "lat"

/-- The value at `view.center.lng`, or at `view.center.lon` when the former is absent
or null. -/
def earthLng (v : JsVal) : JsVal :=
  if (((v.field "view").field "center").field "lng").isNullish
  then ((v.field "view").field "center").field "lon"
  else ((v.field "view").field "center").field "lng"

/-- The value at `view.zoom`. -/
def earthZoom (v : JsVal) : JsVal := (v.field "view").field "zoom"

end JsVal

/-- A value that coerces to a finite number: a finite number, or a string that is not
empty after trimming and whose `Number()` conversion is finite. -/
def validNumeric (v : JsVal) : Bool :=
  match v with
  | num n => n.isFinite
  | str s => jsTrim s != "" && (stringToNumber s).isFinite
  | _ => false

/-- A value that is missing, null, a boolean, a whitespace-only string, a non-numeric
string, `NaN` or infinite. -/
def InvalidNumeric (v : JsVal) : Prop :=
  v = undefined ∨ v = JsVal.null ∨ (∃ b, v = bool b) ∨ (∃ s, v = str s ∧ jsTrim s = "") ∨
  (∃ s, v = str s ∧ stringToNumber s = JsNum.nan) ∨ v = num JsNum.nan ∨
  (∃ neg, v = num (JsNum.inf neg))

/-- The numeric-string coercion with a default: the coerced value when it is a finite
number, the default otherwise. -/
def coerceOr (v : JsVal) (dflt : JsNum) : JsVal :=
  if isFiniteNum (coerceNum v) then coerceNum v else num dflt

/-- The canonical earth payload as the specification describes it. -/
def earthRecord (v : JsVal) : JsVal :=
  JsVal.obj [
    ("date", v.field "date"),
    ("activeBaseLayer", v.field "activeBaseLayer"),
    ("activeOverlays",
      if (v.field "activeOverlays").isArray then v.field "activeOverlays" else JsVal.arr []),
    ("view", JsVal.obj [
      ("center", JsVal.obj [
        ("lat", coerceOr v.earthLat (JsNum.ofNat 0)),
        ("lng", coerceOr v.earthLng (JsNum.ofNat 0))]),
      ("zoom", coerceOr v.earthZoom (JsNum.ofNat 3))]),
    ("context", if (v.field "context").isNullish then str "" else v.field "context")]

/-- Whether a classifier returns true on a value. -/
def accepts (p : JsVal → Except JsError Bool) (c : JsVal) : Bool :=
  match p c with
  | .ok true => true
  | _ => false

/-- The first of three candidates that a classifier accepts, `null` when none is. -/
def firstAccepted (p : JsVal → Except JsError Bool) (c1 c2 c3 : JsVal) : JsVal :=
  if accepts p c1 then c1 else if accepts p c2 then c2 else if accepts p c3 then c3
  else JsVal.null

/-- The candidate parsed from the `response` field of the decoded body. -/
def responseCandidate (jsonParse : String → Option JsVal) (data : JsVal) : JsVal :=
  tryParse jsonParse (data.field "response")

/-- The candidate parsed from the `message` field of the decoded body. -/
def messageCandidate (jsonParse : String → Option JsVal) (data : JsVal) : JsVal :=
  tryParse jsonParse (data.field "message")

/-- The cosmic message of lines 144-152 for the matched candidate `c`. -/
def cosmicMessage (now : Nat) (iso mode : String) (c : JsVal) : Message :=
  { id := now + 1
    text := if (c.field "title").truthy then c.field "title" else str "Hubble image result"
    sender := "ai", timestamp := iso, mode := mode
    isError := none, payloadType := some "cosmic", payload := some c }

/-- The earth message of lines 154-162 for the normalised payload `p`. -/
def earthMessage (now : Nat) (iso mode : String) (p : JsVal) : Message :=
  { id := now + 1
    text := if (p.field "context").truthy then p.field "context"
            else str "Earth visualization configuration"
    sender := "ai", timestamp := iso, mode := mode
    isError := none, payloadType := some "earth", payload := some p }

/-- The plain message of lines 164-170 with the given text. -/
def plainMessage (now : Nat) (iso mode : String) (text : JsVal) : Message :=
  { id := now + 1
    text := text
    sender := "ai", timestamp := iso, mode := mode
    isError := none, payloadType := none, payload := none }

/-! ## Sample inputs -/

/-- The earth object of the end-to-end example: `lon` in place of `lng`, numeric strings. -/
def earthSample : JsVal :=
  JsVal.obj [
    ("date", str "2024-01-01"), ("activeBaseLayer", str "base"), ("activeOverlays", JsVal.arr []),
    ("view", JsVal.obj [
      ("center", JsVal.obj [("lat", str "10"), ("lon", str "20")]),
      ("zoom", str "3")]),
    ("context", str "ctx")]

/-- An earth object with latitude `"abc"`, zoom `"5.5"` and a null context. -/
def earthBadLat : JsVal :=
  JsVal.obj [
    ("date", str "2024-01-01"), ("activeBaseLayer", str "base"), ("activeOverlays", JsVal.arr []),
    ("view", JsVal.obj [
      ("center", JsVal.obj [("lat", str "abc"), ("lng", num (JsNum.fin false 5 2))]),
      ("zoom", str "5.5")]),
    ("context", JsVal.null)]

/-- A cosmic object without the key `credits`. -/
def cosmicNoCredits : JsVal :=
  JsVal.obj [
    ("title", str "T"), ("description", str "D"), ("imageUrl", str "i"),
    ("thumbnailUrl", str "t"), ("category", str "c"), ("releaseDate", str "r"),
    ("relevanceScore", num (JsNum.fin false 1 0))]

/-- An object whose `view` is `true` and whose `activeOverlays` is a string. -/
def viewIsTrue : JsVal :=
  JsVal.obj [("view", bool true), ("activeOverlays", str "none"), ("lat", JsVal.arr [])]

/-- An object of both shapes, with an empty title. -/
def cosmicAndEarth : JsVal :=
  JsVal.obj [
    ("title", str ""), ("description", str "D"), ("imageUrl", str "i"),
    ("thumbnailUrl", str "t"), ("category", str "c"), ("releaseDate", str "r"),
    ("credits", str "cr"), ("relevanceScore", num (JsNum.fin false 1 0)),
    ("date", str "2024-01-01"), ("activeBaseLayer", str "base"), ("activeOverlays", JsVal.arr []),
    ("view", JsVal.obj [
      ("center", JsVal.obj [("lat", str "10"), ("lng", str "20")]),
      ("zoom", num (JsNum.fin false 3 0))]),
    ("context", str "ctx")]

/-- The cosmic object of the end-to-end example. -/
def cosmicSample : JsVal :=
  JsVal.obj [
    ("title", str "T"), ("description", str "D"), ("imageUrl", str "i"),
    ("thumbnailUrl", str "t"), ("category", str "c"), ("releaseDate", str "r"),
    ("credits", str "cr"), ("relevanceScore", num (JsNum.fin false 9 (-1)))]

/-- A `JSON.parse` that rejects every string. -/
def noParse : String → Option JsVal := fun _ => none

/-- An earth object with a non-numeric `lng` next to a numeric `lon`. -/
def earthLngAndLon : JsVal :=
  JsVal.obj [
    ("date", str "2024-01-01"), ("activeBaseLayer", str "base"), ("activeOverlays", JsVal.arr []),
    ("view", JsVal.obj [
      ("center", JsVal.obj [("lat", str "10"), ("lng", str "east"), ("lon", str "20")]),
      ("zoom", str "3")]),
    ("context", str "ctx")]

/-! ## The send handler (Chatbot.jsx, lines 21-71 and 173-187) -/

/-- The function `getModePrefix` (lines 21-34). -/
def getModePrefix (m : String) : String :=
  if m = "earth" then "use earth methods"
  else if m = "cosmic" then "search cosmic"
  else if m = "beginner" then "beginner mode"
  else if m = "advanced" then "advanced mode"
  else ""

/-- The method `xs.slice(start)`: a negative `start` counts from the end. -/
def jsSlice {α : Type} (xs : List α) (start : Int) : List α :=
  let len : Int := xs.length
  let k : Int := if start < 0 then max (len + start) 0 else min start len
  xs.drop k.toNat

/-- The component state that `handleSendMessage` reads and writes (lines 6-8). -/
structure ChatState where
  messages : List Message
  inputMessage : String
  isLoading : Bool

/-- The JSON body of the request (lines 63-66). -/
structure ChatRequest where
  prompt : String
  conversationHistory : List Message

/-- What the call of `fetch` and the decoding of the body come to: the call rejects
(network error), or a response arrives with a status and a body that `response.json()`
decodes (`some`) or rejects (`none`). -/
inductive FetchOutcome where
  | rejected : FetchOutcome
  | responded (status : Nat) (body : Option JsVal) : FetchOutcome

/-- Why the `try` block of lines 51-173 was left for the `catch` block. -/
inductive SendError where
  | fetchRejected : SendError
  | httpStatus (status : Nat) : SendError
  | bodyRejected : SendError
  | raised (e : JsError) : SendError

/-- The property `response.ok`: the status is in the range 200-299. -/
def responseOk (status : Nat) : Bool := decide (200 ≤ status) && decide (status ≤ 299)

/-- The message `userMessage` of lines 39-45. -/
def userMessage (now : Nat) (iso mode inputMessage : String) : Message :=
  { id := now
    text := str inputMessage
    sender := "user", timestamp := iso, mode := mode
    isError := none, payloadType := none, payload := none }

/-- The request body of lines 53-66: the prompt with the mode keyword in front, and the
history `[...messages.slice(-5), userMessage]`. -/
def chatRequest (mode : String) (messages : List Message) (inputMessage : String)
    (user : Message) : ChatRequest :=
  let pre := getModePrefix mode
  { prompt := if pre ≠ "" then pre ++ " " ++ inputMessage else inputMessage
    conversationHistory := jsSlice messages (-5) ++ [user] }

/-- The `try` block from the answer of `fetch` on (lines 69-172): the AI message, or the
reason for leaving the block. -/
def sendAttempt (jsonParse : String → Option JsVal) (now : Nat) (iso mode : String)
    (outcome : FetchOutcome) : Except SendError Message :=
  match outcome with
  | .rejected => .error .fetchRejected
  | .responded status body =>
    if !responseOk status then .error (.httpStatus status)
    else
      match body with
      | none => .error .bodyRejected
      | some data =>
        match composeAiMessage jsonParse now iso mode data with
        | .ok m => .ok m
        | .error e => .error (.raised e)

/-- The state after lines 47-49, while the request is pending. -/
def pendingState (st : ChatState) (user : Message) : ChatState :=
  { messages := st.messages ++ [user], inputMessage := "", isLoading := true }

/-- The function `handleSendMessage` (lines 36-188) as a step on the state.  `fetch` is
the backend as seen through `fetch` and `response.json()`; `t0`, `iso0` are the clock
readings for the user message and `t1`, `iso1` those for the reply. -/
def handleSendMessage (jsonParse : String → Option JsVal) (fetch : ChatRequest → FetchOutcome)
    (t0 : Nat) (iso0 : String) (t1 : Nat) (iso1 : String) (mode : String)
    (st : ChatState) : ChatState :=
  if jsTrim st.inputMessage = "" ∨ st.isLoading = true then st
  else
    let user := userMessage t0 iso0 mode st.inputMessage
    let pending := pendingState st user
    let request := chatRequest mode st.messages st.inputMessage user
    let reply :=
      match sendAttempt jsonParse t1 iso1 mode (fetch request) with
      | .ok aiMessage => aiMessage
      | .error _ => errorMessage t1 iso1 mode
    { pending with messages := pending.messages ++ [reply], isLoading := false }

/-- Whether a value is a string (`typeof v === "string"`). -/
def isString (v : JsVal) : Bool :=
  match v with
  | str _ => true
  | _ => false

/-- The value the display text of the reply is taken from: the title of the cosmic match,
else the context of the earth match, else `data.response` when truthy and `data.message`
otherwise. -/
def textSource (jsonParse : String → Option JsVal) (data : JsVal) : JsVal :=
  if (firstAccepted isCosmicPayload (responseCandidate jsonParse data)
        (messageCandidate jsonParse data) data).isObject
  then (firstAccepted isCosmicPayload (responseCandidate jsonParse data)
        (messageCandidate jsonParse data) data).field "title"
  else if (firstAccepted isEarthPayload (responseCandidate jsonParse data)
        (messageCandidate jsonParse data) data).isObject
  then (firstAccepted isEarthPayload (responseCandidate jsonParse data)
        (messageCandidate jsonParse data) data).field "context"
  else if (data.field "response").truthy then data.field "response"
  else data.field "message"

/-- A state with seven earlier messages and a typed question. -/
def busyChat : ChatState :=
  { messages := (List.range 7).map (fun i => userMessage i "t" "none" "hello")
    inputMessage := "where is the ISS?"
    isLoading := false }

/-- A backend that answers every request with HTTP 500. -/
def failingBackend : ChatRequest → FetchOutcome := fun _ => FetchOutcome.responded 500 none

/-- A decoded body whose `response` field is the number 5. -/
def numericResponse : JsVal := JsVal.obj [("response", num (JsNum.fin false 5 0))]

/-- An object whose `context` is the number 5. -/
def numericContext : JsVal := JsVal.obj [("context", num (JsNum.fin false 5 0))]

/-- A backend that answers every request with HTTP 200 and the body `null`. -/
def nullBackend : ChatRequest → FetchOutcome := fun _ => FetchOutcome.responded 200 (some JsVal.null)

/-! ## Basic facts -/

theorem getProp_of_truthy (v : JsVal) (k : String) (h : v.truthy = true) :
    getProp v k = .ok (v.field k) := by
  cases v <;> simp_all [getProp, JsVal.field, JsVal.truthy]

theorem getProp_of_isObject (v : JsVal) (k : String) (h : v.isObject = true) :
    getProp v k = .ok (v.field k) := by
  cases v <;> simp_all [getProp, JsVal.field, JsVal.isObject]

theorem field_or_empty (x : JsVal) (k : String) :
    (x.or (JsVal.obj [])).field k = x.field k := by
  unfold JsVal.or
  split
  · rfl
  · cases x <;> simp_all [JsVal.truthy, JsVal.field]

theorem getProp_or_empty (x : JsVal) (k : String) :
    getProp (x.or (JsVal.obj [])) k = .ok (x.field k) := by
  rw [getProp_of_truthy, field_or_empty]
  unfold JsVal.or
  split
  · assumption
  · rfl

theorem isFiniteNum_coerceNum (v : JsVal) : isFiniteNum (coerceNum v) = validNumeric v := by
  cases v <;> try rfl
  rename_i s
  by_cases h : jsTrim s = "" <;> simp [coerceNum, isFiniteNum, validNumeric, h, JsNum.isFinite]

theorem everyKey_hasProperty_obj (props : List (String × JsVal)) (ks : List String) :
    everyKey (fun k => hasProperty k (JsVal.obj props)) ks
      = .ok (ks.all (fun k => (JsVal.obj props).hasKey k)) := by
  induction ks with
  | nil => rfl
  | cons k ks ih =>
    rw [everyKey, List.all_cons]
    cases h : (JsVal.obj props).hasKey k
    · have hp : hasProperty k (JsVal.obj props) = .ok false := by
        rw [← h]; rfl
      simp [hp]
    · have hp : hasProperty k (JsVal.obj props) = .ok true := by
        rw [← h]; rfl
      simp [hp, ih]

theorem isObject_iff (v : JsVal) :
    v.isObject = (v.truthy && v.typeOf == "object") := by
  cases v <;> simp [JsVal.isObject, JsVal.truthy, JsVal.typeOf]

theorem ite_ok {α : Type} (c : Prop) [Decidable c] (a b : α) :
    (if c then (Except.ok a : Except JsError α) else Except.ok b) = Except.ok (if c then a else b) := by
  split <;> rfl

theorem hasKey_date_arr (items : List JsVal) : (JsVal.arr items).hasKey "date" = false := by
  have h1 : ("date" == "length") = false := by decide
  have h2 : arrayIndex "date" = none := by rfl
  simp [JsVal.hasKey, h1, h2]

theorem isEarthPayload_eq (v : JsVal) :
    isEarthPayload v = .ok (v.isObject && earthBaseKeys.all (fun k => v.hasKey k) &&
      (v.field "activeOverlays").isArray && validNumeric v.earthLat &&
      validNumeric v.earthLng && validNumeric v.earthZoom) := by
  cases v with
  | obj props =>
    have hk := everyKey_hasProperty_obj props earthBaseKeys
    cases hall : earthBaseKeys.all (fun k => (JsVal.obj props).hasKey k)
    · rw [hall] at hk
      simp [isEarthPayload, JsVal.truthy, JsVal.typeOf, hk, bind, Except.bind, pure, Except.pure,
        JsVal.isObject]
    · rw [hall] at hk
      simp [isEarthPayload, JsVal.truthy, JsVal.typeOf, hk, bind, Except.bind, pure, Except.pure,
        JsVal.isObject, getProp_of_isObject, getProp_or_empty, ite_ok, isFiniteNum_coerceNum,
        JsVal.earthLat, JsVal.earthLng, JsVal.earthZoom, Bool.and_assoc]
  | arr items =>
    have hp : hasProperty "date" (JsVal.arr items) = .ok false := by
      have := hasKey_date_arr items
      simp only [JsVal.hasKey] at this
      simp only [hasProperty, this]
    simp [isEarthPayload, JsVal.truthy, JsVal.typeOf, bind, Except.bind, pure, Except.pure,
        JsVal.isObject, earthBaseKeys, everyKey, hp, hasKey_date_arr]
  | _ => simp [isEarthPayload, JsVal.truthy, JsVal.typeOf, bind, Except.bind, pure, Except.pure,
        JsVal.isObject]

theorem hasKey_title_arr (items : List JsVal) : (JsVal.arr items).hasKey "title" = false := by
  have h1 : ("title" == "length") = false := by decide
  have h2 : arrayIndex "title" = none := by rfl
  simp [JsVal.hasKey, h1, h2]

theorem isCosmicPayload_eq (v : JsVal) :
    isCosmicPayload v = .ok (v.isObject && cosmicRequired.all (fun k => v.hasKey k)) := by
  cases v with
  | obj props =>
    simp [isCosmicPayload, JsVal.truthy, JsVal.typeOf, everyKey_hasProperty_obj, JsVal.isObject]
  | arr items =>
    have hp : hasProperty "title" (JsVal.arr items) = .ok false := by
      have := hasKey_title_arr items
      simp only [JsVal.hasKey] at this
      simp only [hasProperty, this]
    simp [isCosmicPayload, JsVal.truthy, JsVal.typeOf, JsVal.isObject, cosmicRequired, everyKey,
      hp, hasKey_title_arr]
  | _ => simp [isCosmicPayload, JsVal.truthy, JsVal.typeOf, JsVal.isObject]

theorem validNumeric_of_invalid (x : JsVal) (h : InvalidNumeric x) : validNumeric x = false := by
  rcases h with h | h | ⟨b, h⟩ | ⟨s, h, ht⟩ | ⟨s, h, hn⟩ | h | ⟨n, h⟩ <;> subst h <;>
    simp_all [validNumeric, JsNum.isFinite]

theorem normalizeEarthPayload_eq (v : JsVal) :
    normalizeEarthPayload v = .ok (if v.isObject then earthRecord v else JsVal.null) := by
  cases v with
  | obj props =>
    simp [normalizeEarthPayload, JsVal.truthy, JsVal.typeOf, bind, Except.bind, pure, Except.pure,
      JsVal.isObject, getProp_of_isObject, getProp_or_empty, ite_ok, earthRecord, coerceOr,
      JsVal.earthLat, JsVal.earthLng, JsVal.earthZoom]
  | arr items =>
    simp [normalizeEarthPayload, JsVal.truthy, JsVal.typeOf, bind, Except.bind, pure, Except.pure,
      JsVal.isObject, getProp_of_isObject, getProp_or_empty, ite_ok, earthRecord, coerceOr,
      JsVal.earthLat, JsVal.earthLng, JsVal.earthZoom]
  | _ => simp [normalizeEarthPayload, JsVal.truthy, JsVal.typeOf, bind, Except.bind, pure,
      Except.pure, JsVal.isObject]

/-- C1: `isEarthPayload` returns a boolean for every value, and returns true if and only
if the value is a non-null object, contains the keys `date`, `activeBaseLayer`,
`activeOverlays`, `view` and `context`, has an array at `activeOverlays`, and each of
`view.center.lat`, `view.center.lng` (or `view.center.lon` when `lng` is absent or null)
and `view.zoom` is a finite number or a string that is non-empty after trimming with a
finite `Number()` conversion.  In particular it returns false when one of the three is
missing, null, a boolean, a whitespace-only string, a non-numeric string, `NaN` or
infinite. -/
theorem isEarthPayload_iff_shape (v : JsVal) :
    (∃ b, isEarthPayload v = .ok b) ∧
    (isEarthPayload v = .ok true ↔
      v.isObject = true ∧
      v.hasKey "date" = true ∧ v.hasKey "activeBaseLayer" = true ∧
      v.hasKey "activeOverlays" = true ∧ v.hasKey "view" = true ∧ v.hasKey "context" = true ∧
      (v.field "activeOverlays").isArray = true ∧
      validNumeric v.earthLat = true ∧ validNumeric v.earthLng = true ∧
      validNumeric v.earthZoom = true) ∧
    (InvalidNumeric v.earthLat ∨ InvalidNumeric v.earthLng ∨ InvalidNumeric v.earthZoom →
      isEarthPayload v = .ok false) := by
  refine ⟨⟨_, isEarthPayload_eq v⟩, ?_, ?_⟩
  · rw [isEarthPayload_eq]
    simp only [earthBaseKeys, List.all_cons, List.all_nil, Except.ok.injEq, Bool.and_eq_true,
      Bool.and_true]
    tauto
  · intro h
    rw [isEarthPayload_eq]
    rcases h with h | h | h <;> simp [validNumeric_of_invalid _ h]

theorem isEarthPayload_iff_shape_witness :
    InvalidNumeric earthBadLat.earthLat ∧ isEarthPayload earthBadLat = .ok false :=
  ⟨Or.inr (Or.inr (Or.inr (Or.inr (Or.inl ⟨"abc", rfl, by decide⟩)))),
    (isEarthPayload_iff_shape earthBadLat).2.2
      (Or.inl (Or.inr (Or.inr (Or.inr (Or.inr (Or.inl ⟨"abc", rfl, by decide⟩))))))⟩

/-- C2: `isCosmicPayload` returns a boolean for every value, and returns true if and only
if the value is a non-null object containing all eight keys `title`, `description`,
`imageUrl`, `thumbnailUrl`, `category`, `releaseDate`, `credits` and `relevanceScore`,
whatever their values; it returns false for every object missing one of the eight keys,
and for `null` and every non-object value. -/
theorem isCosmicPayload_iff_keys (v : JsVal) :
    (∃ b, isCosmicPayload v = .ok b) ∧
    (isCosmicPayload v = .ok true ↔
      v.isObject = true ∧
      v.hasKey "title" = true ∧ v.hasKey "description" = true ∧ v.hasKey "imageUrl" = true ∧
      v.hasKey "thumbnailUrl" = true ∧ v.hasKey "category" = true ∧
      v.hasKey "releaseDate" = true ∧ v.hasKey "credits" = true ∧
      v.hasKey "relevanceScore" = true) ∧
    (∀ k ∈ cosmicRequired, v.hasKey k = false → isCosmicPayload v = .ok false) ∧
    (v.isObject = false → isCosmicPayload v = .ok false) := by
  refine ⟨⟨_, isCosmicPayload_eq v⟩, ?_, ?_, ?_⟩
  · rw [isCosmicPayload_eq]
    simp only [cosmicRequired, List.all_cons, List.all_nil, Except.ok.injEq, Bool.and_eq_true,
      Bool.and_true]
  · intro k hk hmiss
    rw [isCosmicPayload_eq]
    have : cosmicRequired.all (fun k => v.hasKey k) = false := by
      rw [List.all_eq_false]
      exact ⟨k, hk, by simp [hmiss]⟩
    simp [this]
  · intro h
    rw [isCosmicPayload_eq]
    simp [h]

theorem isCosmicPayload_iff_keys_witness :
    "credits" ∈ cosmicRequired ∧ cosmicNoCredits.hasKey "credits" = false ∧
    isCosmicPayload cosmicNoCredits = .ok false ∧ isCosmicPayload JsVal.null = .ok false :=
  ⟨by decide, by rfl,
    (isCosmicPayload_iff_keys cosmicNoCredits).2.2.1 "credits" (by decide) (by rfl),
    (isCosmicPayload_iff_keys JsVal.null).2.2.2 (by rfl)⟩

theorem isFiniteNum_coerceOr (x : JsVal) (d : JsNum) (hd : d.isFinite = true) :
    isFiniteNum (coerceOr x d) = true := by
  unfold coerceOr
  split
  · assumption
  · simpa [isFiniteNum] using hd

theorem coerceNum_of_isFiniteNum (y : JsVal) (h : isFiniteNum y = true) : coerceNum y = y := by
  cases y <;> simp_all [isFiniteNum, coerceNum]

theorem coerceOr_of_isFiniteNum (y : JsVal) (d : JsNum) (h : isFiniteNum y = true) :
    coerceOr y d = y := by
  unfold coerceOr
  rw [coerceNum_of_isFiniteNum y h]
  simp [h]

theorem isNullish_of_isFiniteNum (y : JsVal) (h : isFiniteNum y = true) :
    y.isNullish = false := by
  cases y <;> simp_all [isFiniteNum, JsVal.isNullish]

theorem earthRecord_fields (v : JsVal) :
    (earthRecord v).field "date" = v.field "date" ∧
    (earthRecord v).field "activeBaseLayer" = v.field "activeBaseLayer" ∧
    (earthRecord v).field "activeOverlays" =
      (if (v.field "activeOverlays").isArray then v.field "activeOverlays" else JsVal.arr []) ∧
    (earthRecord v).field "context" =
      (if (v.field "context").isNullish then str "" else v.field "context") ∧
    (earthRecord v).earthLat = coerceOr v.earthLat (JsNum.ofNat 0) ∧
    ((((earthRecord v).field "view").field "center").field "lng")
      = coerceOr v.earthLng (JsNum.ofNat 0) ∧
    (earthRecord v).earthZoom = coerceOr v.earthZoom (JsNum.ofNat 3) := by
  refine ⟨rfl, rfl, rfl, rfl, rfl, rfl, rfl⟩

theorem earthRecord_congr (a b : JsVal)
    (h1 : a.field "date" = b.field "date")
    (h2 : a.field "activeBaseLayer" = b.field "activeBaseLayer")
    (h3 : (if (a.field "activeOverlays").isArray then a.field "activeOverlays" else JsVal.arr [])
        = (if (b.field "activeOverlays").isArray then b.field "activeOverlays" else JsVal.arr []))
    (h4 : coerceOr a.earthLat (JsNum.ofNat 0) = coerceOr b.earthLat (JsNum.ofNat 0))
    (h5 : coerceOr a.earthLng (JsNum.ofNat 0) = coerceOr b.earthLng (JsNum.ofNat 0))
    (h6 : coerceOr a.earthZoom (JsNum.ofNat 3) = coerceOr b.earthZoom (JsNum.ofNat 3))
    (h7 : (if (a.field "context").isNullish then str "" else a.field "context")
        = (if (b.field "context").isNullish then str "" else b.field "context")) :
    earthRecord a = earthRecord b := by
  unfold earthRecord
  rw [h1, h2, h3, h4, h5, h6, h7]

theorem earthLng_of_lng (a : JsVal)
    (h : (((a.field "view").field "center").field "lng").isNullish = false) :
    a.earthLng = ((a.field "view").field "center").field "lng" := by
  unfold JsVal.earthLng
  rw [h]
  simp

theorem earthLng_of_no_lng (a : JsVal)
    (h : (((a.field "view").field "center").field "lng").isNullish = true) :
    a.earthLng = ((a.field "view").field "center").field "lon" := by
  unfold JsVal.earthLng
  rw [h]
  simp

theorem earthRecord_idem (v : JsVal) : earthRecord (earthRecord v) = earthRecord v := by
  obtain ⟨h1, h2, h3, h4, h5, h6, h7⟩ := earthRecord_fields v
  have f0 : (JsNum.ofNat 0).isFinite = true := by rfl
  have f3 : (JsNum.ofNat 3).isFinite = true := by rfl
  have hlng : (earthRecord v).earthLng = coerceOr v.earthLng (JsNum.ofNat 0) := by
    rw [earthLng_of_lng, h6]
    rw [h6]
    exact isNullish_of_isFiniteNum _ (isFiniteNum_coerceOr _ _ f0)
  apply earthRecord_congr
  · exact h1
  · exact h2
  · rw [h3]; split <;> simp_all [JsVal.isArray]
  · rw [h5]; exact coerceOr_of_isFiniteNum _ _ (isFiniteNum_coerceOr _ _ f0)
  · rw [hlng]; exact coerceOr_of_isFiniteNum _ _ (isFiniteNum_coerceOr _ _ f0)
  · rw [h7]; exact coerceOr_of_isFiniteNum _ _ (isFiniteNum_coerceOr _ _ f3)
  · rw [h4]; split <;> simp_all [JsVal.isNullish]

/-- C3: for every non-null object, `normalizeEarthPayload` returns the record with
`date` and `activeBaseLayer` copied, `activeOverlays` kept when it is an array and
`[]` otherwise, `lat`, `lng` (else `lon`) and `zoom` coerced, with `0`, `0` and `3` in
place of a coercion that is not a finite number, and `context` kept when present and
non-null and `""` otherwise.  A latitude `"abc"` gives `0`; a zoom `"5.5"` gives `5.5`. -/
theorem normalizeEarthPayload_record (v : JsVal) (h : v.isObject = true) :
    normalizeEarthPayload v = .ok (JsVal.obj [
      ("date", v.field "date"),
      ("activeBaseLayer", v.field "activeBaseLayer"),
      ("activeOverlays",
        if (v.field "activeOverlays").isArray then v.field "activeOverlays" else JsVal.arr []),
      ("view", JsVal.obj [
        ("center", JsVal.obj [
          ("lat", if validNumeric v.earthLat then coerceNum v.earthLat
                  else num (JsNum.fin false 0 0)),
          ("lng", if validNumeric v.earthLng then coerceNum v.earthLng
                  else num (JsNum.fin false 0 0))]),
        ("zoom", if validNumeric v.earthZoom then coerceNum v.earthZoom
                 else num (JsNum.fin false 3 0))]),
      ("context", if (v.field "context").isNullish then str "" else v.field "context")]) ∧
    (v.earthLat = str "abc" →
      ∃ p, normalizeEarthPayload v = .ok p ∧ p.earthLat = num (JsNum.fin false 0 0)) ∧
    (v.earthZoom = str "5.5" →
      ∃ p, normalizeEarthPayload v = .ok p ∧ p.earthZoom = num (JsNum.fin false 11 (-1))) := by
  have heq := normalizeEarthPayload_eq v
  rw [h] at heq
  simp only [if_true] at heq
  refine ⟨?_, ?_, ?_⟩
  · rw [heq]
    simp only [earthRecord, coerceOr, isFiniteNum_coerceNum]
    rfl
  · intro hl
    refine ⟨_, heq, ?_⟩
    rw [(earthRecord_fields v).2.2.2.2.1, hl]
    rfl
  · intro hz
    refine ⟨_, heq, ?_⟩
    rw [(earthRecord_fields v).2.2.2.2.2.2, hz]
    rfl

theorem normalizeEarthPayload_record_witness :
    earthBadLat.isObject = true ∧
    normalizeEarthPayload earthBadLat = .ok (JsVal.obj [
      ("date", str "2024-01-01"), ("activeBaseLayer", str "base"),
      ("activeOverlays", JsVal.arr []),
      ("view", JsVal.obj [
        ("center", JsVal.obj [
          ("lat", num (JsNum.fin false 0 0)), ("lng", num (JsNum.fin false 5 2))]),
        ("zoom", num (JsNum.fin false 11 (-1)))]),
      ("context", str "")]) :=
  ⟨rfl, (normalizeEarthPayload_record earthBadLat rfl).1⟩

/-- C8: `normalizeEarthPayload` is idempotent: for every input it returns a value, and
normalising that value returns it again, field by field. -/
theorem normalizeEarthPayload_idempotent (x : JsVal) :
    ∃ p, normalizeEarthPayload x = .ok p ∧ normalizeEarthPayload p = .ok p := by
  refine ⟨_, normalizeEarthPayload_eq x, ?_⟩
  rw [normalizeEarthPayload_eq]
  cases hx : x.isObject
  · rfl
  · have : (earthRecord x).isObject = true := rfl
    simp only [if_true, this, earthRecord_idem]

/-- C9: normalisation never fails: for every non-null object, whatever it holds at
`view`, `view.center`, `lat`, `lng`, `lon`, `zoom` and `activeOverlays`,
`normalizeEarthPayload` raises no error and returns a non-null object whose
`activeOverlays` is an array and whose `view.center.lat`, `view.center.lng` and
`view.zoom` are finite numbers. -/
theorem normalizeEarthPayload_never_fails (v : JsVal) (h : v.isObject = true) :
    ∃ p, normalizeEarthPayload v = .ok p ∧ p.isObject = true ∧
      (p.field "activeOverlays").isArray = true ∧
      isFiniteNum p.earthLat = true ∧
      isFiniteNum (((p.field "view").field "center").field "lng") = true ∧
      isFiniteNum p.earthZoom = true := by
  have heq := normalizeEarthPayload_eq v
  rw [h] at heq
  simp only [if_true] at heq
  obtain ⟨-, -, h3, -, h5, h6, h7⟩ := earthRecord_fields v
  refine ⟨_, heq, rfl, ?_, ?_, ?_, ?_⟩
  · rw [h3]; split
    · assumption
    · rfl
  · rw [h5]; exact isFiniteNum_coerceOr _ _ rfl
  · rw [h6]; exact isFiniteNum_coerceOr _ _ rfl
  · rw [h7]; exact isFiniteNum_coerceOr _ _ rfl

theorem normalizeEarthPayload_never_fails_witness :
    viewIsTrue.isObject = true ∧
    ∃ p, normalizeEarthPayload viewIsTrue = .ok p ∧ p.isObject = true ∧
      (p.field "activeOverlays").isArray = true ∧
      isFiniteNum p.earthLat = true ∧
      isFiniteNum (((p.field "view").field "center").field "lng") = true ∧
      isFiniteNum p.earthZoom = true :=
  ⟨rfl, normalizeEarthPayload_never_fails viewIsTrue rfl⟩

theorem optProp_eq (v : JsVal) (k : String) : optProp v k = .ok (v.field k) := by
  cases v <;> rfl

theorem parsedFields_eq (jsonParse : String → Option JsVal) (data : JsVal) :
    parsedFields jsonParse data
      = .ok (responseCandidate jsonParse data, messageCandidate jsonParse data) := by
  simp [parsedFields, optProp_eq, bind, Except.bind, pure, Except.pure, responseCandidate,
    messageCandidate]

theorem isCosmicPayload_accepts (c : JsVal) :
    isCosmicPayload c = .ok (accepts isCosmicPayload c) := by
  unfold accepts
  rw [isCosmicPayload_eq]
  cases (c.isObject && cosmicRequired.all (fun k => c.hasKey k)) <;> rfl

theorem isEarthPayload_accepts (c : JsVal) :
    isEarthPayload c = .ok (accepts isEarthPayload c) := by
  unfold accepts
  rw [isEarthPayload_eq]
  generalize (c.isObject && earthBaseKeys.all (fun k => c.hasKey k) &&
      (c.field "activeOverlays").isArray && validNumeric c.earthLat &&
      validNumeric c.earthLng && validNumeric c.earthZoom) = b
  cases b <;> rfl

theorem accepts_iff (p : JsVal → Except JsError Bool) (c : JsVal) :
    accepts p c = true ↔ p c = .ok true := by
  unfold accepts
  split <;> simp_all

theorem isObject_of_cosmic (c : JsVal) (h : accepts isCosmicPayload c = true) :
    c.isObject = true := by
  rw [accepts_iff, isCosmicPayload_eq] at h
  simp at h
  exact h.1

theorem isObject_of_earth (c : JsVal) (h : accepts isEarthPayload c = true) :
    c.isObject = true := by
  rw [accepts_iff, isEarthPayload_eq] at h
  simp at h
  exact h.1.1.1.1.1

theorem truthy_of_isObject (c : JsVal) (h : c.isObject = true) : c.truthy = true := by
  cases c <;> simp_all [JsVal.isObject, JsVal.truthy]

theorem cosmicTest_eq (c : JsVal) : cosmicTest c = .ok (accepts isCosmicPayload c) := by
  unfold cosmicTest
  split
  · exact isCosmicPayload_accepts c
  · next h =>
    cases ha : accepts isCosmicPayload c
    · rfl
    · exact absurd (truthy_of_isObject c (isObject_of_cosmic c ha)) h

theorem earthTest_eq (c : JsVal) : earthTest c = .ok (accepts isEarthPayload c) := by
  unfold earthTest
  split
  · exact isEarthPayload_accepts c
  · next h =>
    cases ha : accepts isEarthPayload c
    · rfl
    · exact absurd (truthy_of_isObject c (isObject_of_earth c ha)) h

theorem findFirst_three (t : JsVal → Except JsError Bool) (q : JsVal → Bool)
    (ht : ∀ c, t c = .ok (q c)) (c1 c2 c3 : JsVal) :
    findFirst t [c1, c2, c3]
      = .ok (if q c1 then c1 else if q c2 then c2 else if q c3 then c3 else undefined) := by
  simp only [findFirst, ht]
  cases q c1 <;> cases q c2 <;> cases q c3 <;> rfl

theorem accepts_directObj (p : JsVal → Except JsError Bool)
    (hobj : ∀ c, accepts p c = true → c.isObject = true) (data : JsVal) :
    accepts p (if accepts p (directObj data) then directObj data else JsVal.null)
        = accepts p data ∧
    (accepts p data = true →
      (if accepts p (directObj data) then directObj data else JsVal.null) = data) := by
  have hnull : accepts p JsVal.null = false := by
    cases h : accepts p JsVal.null
    · rfl
    · exact absurd (hobj _ h) (by simp [JsVal.isObject])
  cases hd : data.isObject
  · have h1 : accepts p data = false := by
      cases h : accepts p data
      · rfl
      · rw [hobj _ h] at hd; cases hd
    have h2 : accepts p (directObj data) = false := by
      unfold directObj
      split
      · cases data <;> simp_all [JsVal.isObject, JsVal.typeOf]
      · exact hnull
    simp [h1, h2, hnull]
  · have h2 : directObj data = data := by
      cases data <;> simp_all [JsVal.isObject, JsVal.typeOf, directObj]
    rw [h2]
    cases h : accepts p data <;> simp [h, hnull]

theorem firstAccepted_or (p : JsVal → Except JsError Bool)
    (hobj : ∀ c, accepts p c = true → c.isObject = true) (c1 c2 c3 : JsVal) :
    (if accepts p c1 then c1 else if accepts p c2 then c2 else if accepts p c3 then c3
      else undefined).or JsVal.null = firstAccepted p c1 c2 c3 := by
  unfold firstAccepted JsVal.or
  cases h1 : accepts p c1
  · cases h2 : accepts p c2
    · cases h3 : accepts p c3
      · simp [JsVal.truthy]
      · simp [truthy_of_isObject _ (hobj _ h3)]
    · simp [truthy_of_isObject _ (hobj _ h2)]
  · simp [truthy_of_isObject _ (hobj _ h1)]

theorem parsedCosmic_eq (jsonParse : String → Option JsVal) (data : JsVal) :
    parsedCosmic jsonParse data
      = .ok (firstAccepted isCosmicPayload (responseCandidate jsonParse data)
          (messageCandidate jsonParse data) data) := by
  obtain ⟨ha, hd⟩ := accepts_directObj isCosmicPayload isObject_of_cosmic data
  simp only [parsedCosmic, parsedFields_eq, cosmicTest_eq, bind, Except.bind, pure, Except.pure,
    findFirst_three cosmicTest _ cosmicTest_eq, firstAccepted_or _ isObject_of_cosmic]
  unfold firstAccepted
  rw [ha]
  cases h : accepts isCosmicPayload data
  · simp
  · rw [hd h]

theorem parsedEarthRaw_eq (jsonParse : String → Option JsVal) (data : JsVal) :
    parsedEarthRaw jsonParse data
      = .ok (firstAccepted isEarthPayload (responseCandidate jsonParse data)
          (messageCandidate jsonParse data) data) := by
  obtain ⟨ha, hd⟩ := accepts_directObj isEarthPayload isObject_of_earth data
  simp only [parsedEarthRaw, parsedFields_eq, earthTest_eq, bind, Except.bind, pure, Except.pure,
    findFirst_three earthTest _ earthTest_eq, firstAccepted_or _ isObject_of_earth]
  unfold firstAccepted
  rw [ha]
  cases h : accepts isEarthPayload data
  · simp
  · rw [hd h]

theorem firstAccepted_cases (p : JsVal → Except JsError Bool) (c1 c2 c3 : JsVal) :
    (accepts p c1 = false ∧ accepts p c2 = false ∧ accepts p c3 = false ∧
      firstAccepted p c1 c2 c3 = JsVal.null) ∨
    (accepts p (firstAccepted p c1 c2 c3) = true ∧
      (accepts p c1 = true ∨ accepts p c2 = true ∨ accepts p c3 = true)) := by
  unfold firstAccepted
  cases h1 : accepts p c1 <;> cases h2 : accepts p c2 <;> cases h3 : accepts p c3 <;> simp [*]

theorem parsedEarth_eq (jsonParse : String → Option JsVal) (data : JsVal) :
    parsedEarth jsonParse data
      = .ok (if (firstAccepted isEarthPayload (responseCandidate jsonParse data)
                (messageCandidate jsonParse data) data).isObject
             then earthRecord (firstAccepted isEarthPayload (responseCandidate jsonParse data)
                (messageCandidate jsonParse data) data)
             else JsVal.null) := by
  simp only [parsedEarth, parsedEarthRaw_eq, bind, Except.bind, pure, Except.pure]
  rcases firstAccepted_cases isEarthPayload (responseCandidate jsonParse data)
    (messageCandidate jsonParse data) data with ⟨-, -, -, h⟩ | ⟨h, -⟩
  · rw [h]; rfl
  · have ho := isObject_of_earth _ h
    rw [if_pos (truthy_of_isObject _ ho), normalizeEarthPayload_eq]

theorem composeAiMessage_eq (jsonParse : String → Option JsVal) (now : Nat) (iso mode : String)
    (data : JsVal) :
    composeAiMessage jsonParse now iso mode data =
      if (firstAccepted isCosmicPayload (responseCandidate jsonParse data)
            (messageCandidate jsonParse data) data).isObject
      then .ok (cosmicMessage now iso mode
        (firstAccepted isCosmicPayload (responseCandidate jsonParse data)
            (messageCandidate jsonParse data) data))
      else if (firstAccepted isEarthPayload (responseCandidate jsonParse data)
            (messageCandidate jsonParse data) data).isObject
      then .ok (earthMessage now iso mode
        (earthRecord (firstAccepted isEarthPayload (responseCandidate jsonParse data)
            (messageCandidate jsonParse data) data)))
      else (plainText data).map (plainMessage now iso mode) := by
  simp only [composeAiMessage, parsedCosmic_eq, parsedEarth_eq, bind, Except.bind, pure,
    Except.pure]
  rcases firstAccepted_cases isCosmicPayload (responseCandidate jsonParse data)
    (messageCandidate jsonParse data) data with ⟨-, -, -, hc⟩ | ⟨hc, -⟩
  · have hnt : JsVal.null.truthy = false := rfl
    have hno : JsVal.null.isObject = false := rfl
    rw [hc]
    simp only [hnt, hno, Bool.false_eq_true, if_false]
    rcases firstAccepted_cases isEarthPayload (responseCandidate jsonParse data)
      (messageCandidate jsonParse data) data with ⟨-, -, -, he⟩ | ⟨he, -⟩
    · rw [he]
      simp only [hnt, hno, Bool.false_eq_true, if_false]
      cases plainText data <;> rfl
    · have ho := isObject_of_earth _ he
      simp only [ho, if_true]
      have ht : (earthRecord (firstAccepted isEarthPayload (responseCandidate jsonParse data)
          (messageCandidate jsonParse data) data)).truthy = true := rfl
      simp only [ht, if_true]
      rw [getProp_of_truthy _ _ ht]
      rfl
  · have ho := isObject_of_cosmic _ hc
    have ht := truthy_of_isObject _ ho
    simp only [ho, ht, if_true]
    rw [getProp_of_truthy _ _ ht]
    rfl

/-- C4: whenever the parsed response field, the parsed message field or the raw response
object satisfies `isCosmicPayload`, composition succeeds with a message of payload type
`"cosmic"` whose payload is the matched candidate unchanged and whose text is the
candidate's title when truthy and `"Hubble image result"` otherwise.  Nothing is
assumed about `isEarthPayload`: a cosmic match takes precedence over an earth match. -/
theorem cosmic_match_composes (jsonParse : String → Option JsVal) (now : Nat)
    (iso mode : String) (data : JsVal)
    (h : isCosmicPayload (responseCandidate jsonParse data) = .ok true ∨
         isCosmicPayload (messageCandidate jsonParse data) = .ok true ∨
         isCosmicPayload data = .ok true) :
    ∃ c, (c = responseCandidate jsonParse data ∨ c = messageCandidate jsonParse data ∨
          c = data) ∧
      isCosmicPayload c = .ok true ∧
      parsedCosmic jsonParse data = .ok c ∧
      composeAiMessage jsonParse now iso mode data = .ok
        { id := now + 1
          text := if (c.field "title").truthy then c.field "title"
                  else str "Hubble image result"
          sender := "ai", timestamp := iso, mode := mode
          isError := none, payloadType := some "cosmic", payload := some c } := by
  simp only [← accepts_iff] at h
  refine ⟨firstAccepted isCosmicPayload (responseCandidate jsonParse data)
    (messageCandidate jsonParse data) data, ?_, ?_, parsedCosmic_eq jsonParse data, ?_⟩
  · unfold firstAccepted
    cases h1 : accepts isCosmicPayload (responseCandidate jsonParse data) <;>
      cases h2 : accepts isCosmicPayload (messageCandidate jsonParse data) <;>
      cases h3 : accepts isCosmicPayload data <;> simp_all
  · rcases firstAccepted_cases isCosmicPayload (responseCandidate jsonParse data)
      (messageCandidate jsonParse data) data with ⟨h1, h2, h3, -⟩ | ⟨hc, -⟩
    · simp_all
    · exact (accepts_iff _ _).1 hc
  · rw [composeAiMessage_eq]
    rcases firstAccepted_cases isCosmicPayload (responseCandidate jsonParse data)
      (messageCandidate jsonParse data) data with ⟨h1, h2, h3, -⟩ | ⟨hc, -⟩
    · simp_all
    · rw [if_pos (isObject_of_cosmic _ hc)]
      rfl

theorem cosmic_match_composes_witness :
    isEarthPayload cosmicAndEarth = .ok true ∧
    ∃ c, (c = responseCandidate noParse cosmicAndEarth ∨
          c = messageCandidate noParse cosmicAndEarth ∨ c = cosmicAndEarth) ∧
      isCosmicPayload c = .ok true ∧
      parsedCosmic noParse cosmicAndEarth = .ok c ∧
      composeAiMessage noParse 0 "t" "none" cosmicAndEarth = .ok
        { id := 0 + 1
          text := if (c.field "title").truthy then c.field "title"
                  else str "Hubble image result"
          sender := "ai", timestamp := "t", mode := "none"
          isError := none, payloadType := some "cosmic", payload := some c } :=
  ⟨rfl, cosmic_match_composes noParse 0 "t" "none" cosmicAndEarth (Or.inr (Or.inr rfl))⟩

/-- C7: the cosmic match is the first candidate satisfying `isCosmicPayload` in the order
parsed response field, parsed message field, raw response object: a cosmic parsed
response field is the payload whatever the other two are; otherwise a cosmic parsed
message field is the payload whatever the raw object is; the raw object is the payload
when neither parsed field is cosmic and it is. -/
theorem cosmic_match_order (jsonParse : String → Option JsVal) (now : Nat)
    (iso mode : String) (data : JsVal) :
    (isCosmicPayload (responseCandidate jsonParse data) = .ok true →
      parsedCosmic jsonParse data = .ok (responseCandidate jsonParse data) ∧
      (composeAiMessage jsonParse now iso mode data).map Message.payload
        = .ok (some (responseCandidate jsonParse data))) ∧
    (isCosmicPayload (responseCandidate jsonParse data) = .ok false →
      isCosmicPayload (messageCandidate jsonParse data) = .ok true →
      parsedCosmic jsonParse data = .ok (messageCandidate jsonParse data) ∧
      (composeAiMessage jsonParse now iso mode data).map Message.payload
        = .ok (some (messageCandidate jsonParse data))) ∧
    (isCosmicPayload (responseCandidate jsonParse data) = .ok false →
      isCosmicPayload (messageCandidate jsonParse data) = .ok false →
      isCosmicPayload data = .ok true →
      parsedCosmic jsonParse data = .ok data ∧
      (composeAiMessage jsonParse now iso mode data).map Message.payload
        = .ok (some data)) := by
  have key : ∀ c, accepts isCosmicPayload c = true →
      firstAccepted isCosmicPayload (responseCandidate jsonParse data)
        (messageCandidate jsonParse data) data = c →
      parsedCosmic jsonParse data = .ok c ∧
      (composeAiMessage jsonParse now iso mode data).map Message.payload = .ok (some c) := by
    intro c hc hf
    refine ⟨by rw [parsedCosmic_eq, hf], ?_⟩
    rw [composeAiMessage_eq, hf, if_pos (isObject_of_cosmic _ hc)]
    rfl
  have hfalse : ∀ c, isCosmicPayload c = .ok false → accepts isCosmicPayload c = false := by
    intro c hc
    cases ha : accepts isCosmicPayload c
    · rfl
    · rw [accepts_iff, hc] at ha; cases ha
  refine ⟨fun h1 => ?_, fun h1 h2 => ?_, fun h1 h2 h3 => ?_⟩
  · have a1 := (accepts_iff _ _).2 h1
    exact key _ a1 (by simp [firstAccepted, a1])
  · have a2 := (accepts_iff _ _).2 h2
    exact key _ a2 (by simp [firstAccepted, hfalse _ h1, a2])
  · have a3 := (accepts_iff _ _).2 h3
    exact key _ a3 (by simp [firstAccepted, hfalse _ h1, hfalse _ h2, a3])

theorem cosmic_match_order_witness :
    parsedCosmic noParse (JsVal.obj [("response", cosmicSample), ("message", cosmicAndEarth)])
      = .ok cosmicSample ∧
    (composeAiMessage noParse 0 "t" "none"
        (JsVal.obj [("response", cosmicSample), ("message", cosmicAndEarth)])).map
      Message.payload = .ok (some cosmicSample) :=
  (cosmic_match_order noParse 0 "t" "none"
    (JsVal.obj [("response", cosmicSample), ("message", cosmicAndEarth)])).1 rfl

theorem accepts_false_of (p : JsVal → Except JsError Bool) (c : JsVal) (h : p c = .ok false) :
    accepts p c = false := by
  cases ha : accepts p c
  · rfl
  · rw [accepts_iff, h] at ha; cases ha

/-- C5: whenever no candidate satisfies `isCosmicPayload` and at least one satisfies
`isEarthPayload`, composition succeeds with a message of payload type `"earth"` whose
payload is `normalizeEarthPayload` of the first earth candidate in the order parsed
response, parsed message, raw object, and whose text is the normalised context when
truthy and `"Earth visualization configuration"` otherwise.  For a body whose `message`
field holds the object with lat `"10"`, lon `"20"`, zoom `"3"` and context `"ctx"`, the
payload's `view.center` is `{lat: 10, lng: 20}` and the text is `"ctx"`. -/
theorem earth_match_composes (jsonParse : String → Option JsVal) (now : Nat)
    (iso mode : String) :
    (∀ data : JsVal,
      isCosmicPayload (responseCandidate jsonParse data) = .ok false →
      isCosmicPayload (messageCandidate jsonParse data) = .ok false →
      isCosmicPayload data = .ok false →
      (isEarthPayload (responseCandidate jsonParse data) = .ok true ∨
        isEarthPayload (messageCandidate jsonParse data) = .ok true ∨
        isEarthPayload data = .ok true) →
      ∃ raw p,
        raw = firstAccepted isEarthPayload (responseCandidate jsonParse data)
                (messageCandidate jsonParse data) data ∧
        isEarthPayload raw = .ok true ∧
        parsedEarthRaw jsonParse data = .ok raw ∧
        normalizeEarthPayload raw = .ok p ∧
        composeAiMessage jsonParse now iso mode data = .ok
          { id := now + 1
            text := if (p.field "context").truthy then p.field "context"
                    else str "Earth visualization configuration"
            sender := "ai", timestamp := iso, mode := mode
            isError := none, payloadType := some "earth", payload := some p }) ∧
    (∃ p, composeAiMessage jsonParse now iso mode (JsVal.obj [("message", earthSample)]) = .ok
          { id := now + 1, text := str "ctx"
            sender := "ai", timestamp := iso, mode := mode
            isError := none, payloadType := some "earth", payload := some p } ∧
        (p.field "view").field "center"
          = JsVal.obj [("lat", num (JsNum.fin false 5 1)), ("lng", num (JsNum.fin false 5 2))]) := by
  constructor
  · intro data hc1 hc2 hc3 he
    have a1 := accepts_false_of _ _ hc1
    have a2 := accepts_false_of _ _ hc2
    have a3 := accepts_false_of _ _ hc3
    simp only [← accepts_iff] at he
    have hacc : accepts isEarthPayload (firstAccepted isEarthPayload
        (responseCandidate jsonParse data) (messageCandidate jsonParse data) data) = true := by
      rcases firstAccepted_cases isEarthPayload (responseCandidate jsonParse data)
        (messageCandidate jsonParse data) data with ⟨h1, h2, h3, -⟩ | ⟨hacc, -⟩
      · simp_all
      · exact hacc
    have ho := isObject_of_earth _ hacc
    refine ⟨_, earthRecord (firstAccepted isEarthPayload (responseCandidate jsonParse data)
      (messageCandidate jsonParse data) data), rfl, (accepts_iff _ _).1 hacc,
      parsedEarthRaw_eq jsonParse data, ?_, ?_⟩
    · rw [normalizeEarthPayload_eq, if_pos ho]
    · have hcn : firstAccepted isCosmicPayload (responseCandidate jsonParse data)
          (messageCandidate jsonParse data) data = JsVal.null := by
        simp [firstAccepted, a1, a2, a3]
      have hno : JsVal.null.isObject = false := rfl
      rw [composeAiMessage_eq, hcn, hno, if_neg (by simp), if_pos ho]
      rfl
  · refine ⟨earthRecord earthSample, ?_, ?_⟩
    · rw [composeAiMessage_eq]
      rfl
    · rfl

theorem earth_match_composes_witness :
    ∃ raw p,
      raw = firstAccepted isEarthPayload
              (responseCandidate noParse (JsVal.obj [("message", earthSample)]))
              (messageCandidate noParse (JsVal.obj [("message", earthSample)]))
              (JsVal.obj [("message", earthSample)]) ∧
      isEarthPayload raw = .ok true ∧
      parsedEarthRaw noParse (JsVal.obj [("message", earthSample)]) = .ok raw ∧
      normalizeEarthPayload raw = .ok p ∧
      composeAiMessage noParse 0 "t" "earth" (JsVal.obj [("message", earthSample)]) = .ok
        { id := 0 + 1
          text := if (p.field "context").truthy then p.field "context"
                  else str "Earth visualization configuration"
          sender := "ai", timestamp := "t", mode := "earth"
          isError := none, payloadType := some "earth", payload := some p } :=
  (earth_match_composes noParse 0 "t" "earth").1 (JsVal.obj [("message", earthSample)])
    rfl rfl rfl (Or.inr (Or.inl rfl))

/-- C6 (failing input): for the decoded body `null` no candidate satisfies
`isCosmicPayload` or `isEarthPayload`, yet reading `data.response` at line 166 raises a
`TypeError`; the message appended is the error-flagged one with the text
`"Sorry, I encountered an error. Please try again."`, not the plain message with the text
`"Sorry, I couldn't generate a response."`. -/
theorem null_body_reply_is_error (jsonParse : String → Option JsVal) (now : Nat)
    (iso mode : String) :
    isCosmicPayload (responseCandidate jsonParse JsVal.null) = .ok false ∧
    isCosmicPayload (messageCandidate jsonParse JsVal.null) = .ok false ∧
    isCosmicPayload JsVal.null = .ok false ∧
    isEarthPayload (responseCandidate jsonParse JsVal.null) = .ok false ∧
    isEarthPayload (messageCandidate jsonParse JsVal.null) = .ok false ∧
    isEarthPayload JsVal.null = .ok false ∧
    composeAiMessage jsonParse now iso mode JsVal.null = .error JsError.typeError ∧
    (replyMessage jsonParse now iso mode JsVal.null).isError = some true ∧
    (replyMessage jsonParse now iso mode JsVal.null).text
      = str "Sorry, I encountered an error. Please try again." :=
  ⟨rfl, rfl, rfl, rfl, rfl, rfl, rfl, rfl, rfl⟩

theorem plainText_of_not_nullish (data : JsVal) (h : data.isNullish = false) :
    plainText data = .ok
      (if (data.field "response").truthy then data.field "response"
       else if (data.field "message").truthy then data.field "message"
       else str "Sorry, I couldn't generate a response.") := by
  have hg : ∀ k, getProp data k = .ok (data.field k) := by
    intro k
    have := optProp_eq data k
    simpa [optProp, h] using this
  simp only [plainText, hg, bind, Except.bind, pure, Except.pure, JsVal.or]
  split <;> rfl

theorem plain_message_of_no_match (jsonParse : String → Option JsVal) (now : Nat)
    (iso mode : String) (data : JsVal) (hd : data.isNullish = false)
    (hc1 : isCosmicPayload (responseCandidate jsonParse data) = .ok false)
    (hc2 : isCosmicPayload (messageCandidate jsonParse data) = .ok false)
    (hc3 : isCosmicPayload data = .ok false)
    (he1 : isEarthPayload (responseCandidate jsonParse data) = .ok false)
    (he2 : isEarthPayload (messageCandidate jsonParse data) = .ok false)
    (he3 : isEarthPayload data = .ok false) :
    composeAiMessage jsonParse now iso mode data = .ok
      { id := now + 1
        text := if (data.field "response").truthy then data.field "response"
                else if (data.field "message").truthy then data.field "message"
                else str "Sorry, I couldn't generate a response."
        sender := "ai", timestamp := iso, mode := mode
        isError := none, payloadType := none, payload := none } := by
  have hcn : firstAccepted isCosmicPayload (responseCandidate jsonParse data)
      (messageCandidate jsonParse data) data = JsVal.null := by
    simp [firstAccepted, accepts_false_of _ _ hc1, accepts_false_of _ _ hc2,
      accepts_false_of _ _ hc3]
  have hen : firstAccepted isEarthPayload (responseCandidate jsonParse data)
      (messageCandidate jsonParse data) data = JsVal.null := by
    simp [firstAccepted, accepts_false_of _ _ he1, accepts_false_of _ _ he2,
      accepts_false_of _ _ he3]
  have hno : JsVal.null.isObject = false := rfl
  rw [composeAiMessage_eq, hcn, hen, hno, if_neg (by simp), if_neg (by simp),
    plainText_of_not_nullish data hd]
  rfl

/-- C10: the longitude is taken from `view.center.lon` exactly when `view.center.lng` is
absent or null.  With `lng` absent or null, the normaliser's `lng` is the coercion of
`lon` (with the default `0` when that is not a finite number) and the classifier judges
finiteness on `lon`.  With `lng` present and non-null, `lng` is the value used and `lon`
is ignored: an `lng` that fails coercion gives `0` in the normaliser and a rejection by
the classifier, whatever `lon` holds. -/
theorem longitude_source (v : JsVal) (h : v.isObject = true) :
    ((((v.field "view").field "center").field "lng").isNullish = true →
      (∃ p, normalizeEarthPayload v = .ok p ∧
        ((p.field "view").field "center").field "lng"
          = (if validNumeric (((v.field "view").field "center").field "lon")
             then coerceNum (((v.field "view").field "center").field "lon")
             else num (JsNum.fin false 0 0))) ∧
      isEarthPayload v = .ok (v.isObject && earthBaseKeys.all (fun k => v.hasKey k) &&
        (v.field "activeOverlays").isArray && validNumeric v.earthLat &&
        validNumeric (((v.field "view").field "center").field "lon") &&
        validNumeric v.earthZoom)) ∧
    ((((v.field "view").field "center").field "lng").isNullish = false →
      (∃ p, normalizeEarthPayload v = .ok p ∧
        ((p.field "view").field "center").field "lng"
          = (if validNumeric (((v.field "view").field "center").field "lng")
             then coerceNum (((v.field "view").field "center").field "lng")
             else num (JsNum.fin false 0 0))) ∧
      isEarthPayload v = .ok (v.isObject && earthBaseKeys.all (fun k => v.hasKey k) &&
        (v.field "activeOverlays").isArray && validNumeric v.earthLat &&
        validNumeric (((v.field "view").field "center").field "lng") &&
        validNumeric v.earthZoom) ∧
      (validNumeric (((v.field "view").field "center").field "lng") = false →
        (∃ p, normalizeEarthPayload v = .ok p ∧
          ((p.field "view").field "center").field "lng" = num (JsNum.fin false 0 0)) ∧
        isEarthPayload v = .ok false)) := by
  have heq := normalizeEarthPayload_eq v
  rw [h] at heq
  simp only [if_true] at heq
  have h6 := (earthRecord_fields v).2.2.2.2.2.1
  have hco : ∀ x, coerceOr x (JsNum.ofNat 0)
      = (if validNumeric x then coerceNum x else num (JsNum.fin false 0 0)) := by
    intro x
    unfold coerceOr
    rw [isFiniteNum_coerceNum]
    rfl
  constructor
  · intro hn
    have hl := earthLng_of_no_lng v hn
    refine ⟨⟨_, heq, ?_⟩, ?_⟩
    · rw [h6, hl, hco]
    · rw [isEarthPayload_eq, hl]
  · intro hn
    have hl := earthLng_of_lng v hn
    refine ⟨⟨_, heq, ?_⟩, ?_, ?_⟩
    · rw [h6, hl, hco]
    · rw [isEarthPayload_eq, hl]
    · intro hbad
      refine ⟨⟨_, heq, ?_⟩, ?_⟩
      · rw [h6, hl, hco, hbad]
        rfl
      · rw [isEarthPayload_eq, hl, hbad]
        simp

theorem longitude_source_witness :
    earthLngAndLon.isObject = true ∧
    (((earthLngAndLon.field "view").field "center").field "lng").isNullish = false ∧
    validNumeric (((earthLngAndLon.field "view").field "center").field "lon") = true ∧
    validNumeric (((earthLngAndLon.field "view").field "center").field "lng") = false ∧
    (∃ p, normalizeEarthPayload earthLngAndLon = .ok p ∧
      ((p.field "view").field "center").field "lng" = num (JsNum.fin false 0 0)) ∧
    isEarthPayload earthLngAndLon = .ok false ∧
    (((earthSample.field "view").field "center").field "lng").isNullish = true ∧
    (∃ p, normalizeEarthPayload earthSample = .ok p ∧
      ((p.field "view").field "center").field "lng" = num (JsNum.fin false 5 2)) :=
  ⟨rfl, rfl, rfl, rfl,
    (((longitude_source earthLngAndLon rfl).2 rfl).2.2 rfl).1,
    (((longitude_source earthLngAndLon rfl).2 rfl).2.2 rfl).2,
    rfl,
    ((longitude_source earthSample rfl).1 rfl).1⟩

/-- C11: `tryParse` returns a value on every input: for a string, the value `JSON.parse`
gives when the string is valid JSON and `null` when `JSON.parse` raises; for a non-null
object, that same object; for every other input (`undefined`, `null`, numbers, booleans),
`null`. -/
theorem tryParse_cases (jsonParse : String → Option JsVal) :
    (∀ s v, jsonParse s = some v → tryParse jsonParse (str s) = v) ∧
    (∀ s, jsonParse s = none → tryParse jsonParse (str s) = JsVal.null) ∧
    (∀ v, v.isObject = true → tryParse jsonParse v = v) ∧
    (∀ v, isString v = false → v.isObject = false → tryParse jsonParse v = JsVal.null) ∧
    tryParse jsonParse undefined = JsVal.null ∧
    tryParse jsonParse JsVal.null = JsVal.null ∧
    (∀ n, tryParse jsonParse (num n) = JsVal.null) ∧
    (∀ b, tryParse jsonParse (bool b) = JsVal.null) := by
  refine ⟨?_, ?_, ?_, ?_, rfl, rfl, fun _ => rfl, fun _ => rfl⟩
  · intro s v h
    simp [tryParse, h]
  · intro s h
    simp [tryParse, h]
  · intro v h
    cases v <;> simp_all [JsVal.isObject, tryParse]
  · intro v hs ho
    cases v <;> simp_all [JsVal.isObject, isString, tryParse]

theorem tryParse_cases_witness :
    noParse "not json" = none ∧
    tryParse noParse (str "not json") = JsVal.null ∧
    cosmicSample.isObject = true ∧
    tryParse noParse cosmicSample = cosmicSample ∧
    tryParse (fun _ => some cosmicSample) (str "{}") = cosmicSample :=
  ⟨rfl, (tryParse_cases noParse).2.1 "not json" rfl, rfl,
    (tryParse_cases noParse).2.2.1 cosmicSample rfl,
    (tryParse_cases (fun _ => some cosmicSample)).1 "{}" cosmicSample rfl⟩

theorem jsSlice_neg_five {α : Type} (xs : List α) :
    jsSlice xs (-5) = xs.drop (xs.length - 5) := by
  unfold jsSlice
  have h : (if (-5 : Int) < 0 then max ((xs.length : Int) + -5) 0
      else min (-5) (xs.length : Int)).toNat = xs.length - 5 := by
    rw [if_pos (by decide)]
    omega
  simp only [h]

/-- C15: for a conversation of `n` prior messages, the `conversationHistory` of the
request is the last `min 5 n` prior messages in their original order followed by the
new user message as its final element, so its length is `min 5 n + 1`. -/
theorem history_is_last_five (mode : String) (messages : List Message)
    (inputMessage : String) (user : Message) :
    ∃ older recent,
      messages = older ++ recent ∧
      recent.length = min 5 messages.length ∧
      (chatRequest mode messages inputMessage user).conversationHistory = recent ++ [user] ∧
      (chatRequest mode messages inputMessage user).conversationHistory.length
        = min 5 messages.length + 1 ∧
      (chatRequest mode messages inputMessage user).conversationHistory.getLast? = some user := by
  refine ⟨messages.take (messages.length - 5), messages.drop (messages.length - 5), ?_, ?_, ?_,
    ?_, ?_⟩
  · exact (List.take_append_drop _ _).symm
  · rw [List.length_drop]; omega
  · simp only [chatRequest, jsSlice_neg_five]
  · simp only [chatRequest, jsSlice_neg_five, List.length_append, List.length_drop,
      List.length_singleton]
    omega
  · simp only [chatRequest, jsSlice_neg_five]
    simp

theorem handleSendMessage_sent (jsonParse : String → Option JsVal)
    (fetch : ChatRequest → FetchOutcome) (t0 : Nat) (iso0 : String) (t1 : Nat) (iso1 : String)
    (mode : String) (st : ChatState)
    (hin : jsTrim st.inputMessage ≠ "") (hl : st.isLoading = false) :
    handleSendMessage jsonParse fetch t0 iso0 t1 iso1 mode st =
      { messages := st.messages ++ [userMessage t0 iso0 mode st.inputMessage] ++
          [match sendAttempt jsonParse t1 iso1 mode
              (fetch (chatRequest mode st.messages st.inputMessage
                (userMessage t0 iso0 mode st.inputMessage))) with
            | .ok aiMessage => aiMessage
            | .error _ => errorMessage t1 iso1 mode]
        inputMessage := ""
        isLoading := false } := by
  unfold handleSendMessage
  rw [if_neg (by simp [hin, hl])]
  rfl

/-- C12: when the request fails (the call of `fetch` rejects, the status is not 2xx, or
the body cannot be decoded), the send appends exactly one AI message, with `isError`
true, the text `"Sorry, I encountered an error. Please try again."` and no `payloadType`
or `payload`: the conversation afterwards is the previous conversation, then the user
message, then that error message, and the busy flag is cleared. -/
theorem failed_request_appends_error (jsonParse : String → Option JsVal)
    (fetch : ChatRequest → FetchOutcome) (t0 : Nat) (iso0 : String) (t1 : Nat) (iso1 : String)
    (mode : String) (st : ChatState)
    (hin : jsTrim st.inputMessage ≠ "") (hl : st.isLoading = false)
    (hfail :
      fetch (chatRequest mode st.messages st.inputMessage
        (userMessage t0 iso0 mode st.inputMessage)) = FetchOutcome.rejected ∨
      (∃ status body,
        fetch (chatRequest mode st.messages st.inputMessage
          (userMessage t0 iso0 mode st.inputMessage)) = FetchOutcome.responded status body ∧
        (status < 200 ∨ 299 < status)) ∨
      (∃ status,
        fetch (chatRequest mode st.messages st.inputMessage
          (userMessage t0 iso0 mode st.inputMessage)) = FetchOutcome.responded status none)) :
    ∃ e : Message,
      (handleSendMessage jsonParse fetch t0 iso0 t1 iso1 mode st).messages
        = st.messages ++ [userMessage t0 iso0 mode st.inputMessage, e] ∧
      e.sender = "ai" ∧ e.isError = some true ∧
      e.text = str "Sorry, I encountered an error. Please try again." ∧
      e.payloadType = none ∧ e.payload = none ∧
      (handleSendMessage jsonParse fetch t0 iso0 t1 iso1 mode st).isLoading = false := by
  refine ⟨errorMessage t1 iso1 mode, ?_, rfl, rfl, rfl, rfl, rfl, ?_⟩
  · rw [handleSendMessage_sent _ _ _ _ _ _ _ _ hin hl]
    rcases hfail with h | ⟨status, body, h, hs⟩ | ⟨status, h⟩
    · simp [h, sendAttempt]
    · have hok : responseOk status = false := by
        unfold responseOk
        rcases hs with hs | hs
        · simp [hs]
        · simp [hs]
      simp [h, sendAttempt, hok]
    · by_cases hok : responseOk status = true
      · simp [h, sendAttempt, hok]
      · simp [h, sendAttempt, hok]
  · rw [handleSendMessage_sent _ _ _ _ _ _ _ _ hin hl]

theorem failed_request_appends_error_witness :
    ∃ e : Message,
      (handleSendMessage noParse failingBackend 100 "a" 101 "b" "none" busyChat).messages
        = busyChat.messages ++ [userMessage 100 "a" "none" busyChat.inputMessage, e] ∧
      e.sender = "ai" ∧ e.isError = some true ∧
      e.text = str "Sorry, I encountered an error. Please try again." ∧
      e.payloadType = none ∧ e.payload = none ∧
      (handleSendMessage noParse failingBackend 100 "a" 101 "b" "none" busyChat).isLoading
        = false :=
  failed_request_appends_error noParse failingBackend 100 "a" 101 "b" "none" busyChat
    (by decide) rfl (Or.inr (Or.inl ⟨500, none, rfl, Or.inr (by decide)⟩))

theorem composeAiMessage_null (jsonParse : String → Option JsVal) (now : Nat)
    (iso mode : String) :
    composeAiMessage jsonParse now iso mode JsVal.null = .error JsError.typeError := rfl

theorem composeAiMessage_not_nullish (jsonParse : String → Option JsVal) (now : Nat)
    (iso mode : String) (data : JsVal) (h : data.isNullish = false) :
    ∃ m, composeAiMessage jsonParse now iso mode data = .ok m ∧ m.isError = none ∧
      m.sender = "ai" := by
  rw [composeAiMessage_eq, plainText_of_not_nullish data h]
  split
  · exact ⟨_, rfl, rfl, rfl⟩
  · split
    · exact ⟨_, rfl, rfl, rfl⟩
    · exact ⟨_, rfl, rfl, rfl⟩

/-- C16: for a 2xx reply whose body decodes to a JSON value, the message appended is the
error-flagged one (`"Sorry, I encountered an error. Please try again."`) if and only if
the body is `null`; for every other body (numbers, booleans, strings, arrays, objects of
any shape) composition raises no error and exactly one message, not error-flagged, is
appended after the user message. -/
theorem ok_reply_error_iff_null (jsonParse : String → Option JsVal)
    (fetch : ChatRequest → FetchOutcome) (t0 : Nat) (iso0 : String) (t1 : Nat) (iso1 : String)
    (mode : String) (st : ChatState) (status : Nat) (data : JsVal)
    (hin : jsTrim st.inputMessage ≠ "") (hl : st.isLoading = false)
    (hreply : fetch (chatRequest mode st.messages st.inputMessage
        (userMessage t0 iso0 mode st.inputMessage)) = FetchOutcome.responded status (some data))
    (hstatus : 200 ≤ status ∧ status ≤ 299)
    (hjson : data ≠ undefined) :
    ∃ reply : Message,
      (handleSendMessage jsonParse fetch t0 iso0 t1 iso1 mode st).messages
        = st.messages ++ [userMessage t0 iso0 mode st.inputMessage, reply] ∧
      (reply.isError = some true ↔ data = JsVal.null) ∧
      (data = JsVal.null → reply = errorMessage t1 iso1 mode) ∧
      (data ≠ JsVal.null →
        composeAiMessage jsonParse t1 iso1 mode data = .ok reply ∧ reply.isError = none) := by
  have hok : responseOk status = true := by
    unfold responseOk
    simp [hstatus.1, hstatus.2]
  have hsent := handleSendMessage_sent jsonParse fetch t0 iso0 t1 iso1 mode st hin hl
  rw [hreply] at hsent
  simp only [sendAttempt, hok, Bool.not_true, Bool.false_eq_true, if_false] at hsent
  by_cases hnull : data = JsVal.null
  · subst hnull
    refine ⟨errorMessage t1 iso1 mode, ?_, ?_, ?_, ?_⟩
    · rw [hsent, composeAiMessage_null]
      simp
    · exact ⟨fun _ => rfl, fun _ => rfl⟩
    · intro _; rfl
    · intro h; exact absurd rfl h
  · have hnn : data.isNullish = false := by
      cases data <;> simp_all [JsVal.isNullish]
    obtain ⟨m, hm, herr, -⟩ := composeAiMessage_not_nullish jsonParse t1 iso1 mode data hnn
    refine ⟨m, ?_, ?_, ?_, ?_⟩
    · rw [hsent, hm]
      simp
    · rw [herr]
      simp [hnull]
    · intro h; exact absurd h hnull
    · intro _; exact ⟨hm, herr⟩

theorem ok_reply_error_iff_null_witness :
    ∃ reply : Message,
      (handleSendMessage noParse nullBackend 100 "a" 101 "b" "none" busyChat).messages
        = busyChat.messages ++ [userMessage 100 "a" "none" busyChat.inputMessage, reply] ∧
      (reply.isError = some true ↔ JsVal.null = JsVal.null) ∧
      (JsVal.null = JsVal.null → reply = errorMessage 101 "b" "none") ∧
      (JsVal.null ≠ JsVal.null →
        composeAiMessage noParse 101 "b" "none" JsVal.null = .ok reply ∧
        reply.isError = none) :=
  ok_reply_error_iff_null noParse nullBackend 100 "a" 101 "b" "none" busyChat 200 JsVal.null
    (by decide) rfl rfl (by decide) (by intro h; cases h)

theorem isString_or_literal (src : JsVal) (s : String) :
    isString (if src.truthy then src else str s) = (isString src || !src.truthy) := by
  cases h : src.truthy
  · simp [isString]
  · simp

theorem isString_context_text (ctx : JsVal) (s : String) :
    isString (if (if ctx.isNullish then str "" else ctx).truthy
              then (if ctx.isNullish then str "" else ctx) else str s)
      = (isString ctx || !ctx.truthy) := by
  cases hn : ctx.isNullish
  · simp only [Bool.false_eq_true, if_false]
    exact isString_or_literal ctx s
  · cases ctx <;> simp_all [JsVal.isNullish]
    all_goals rfl

theorem plainText_nullish (data : JsVal) (h : data.isNullish = true) :
    plainText data = .error JsError.typeError := by
  cases data <;> simp_all [JsVal.isNullish]
  all_goals rfl

/-- C13 (counterexample): for the decoded body `{"response": 5}` composition succeeds and
the text of the composed message is the number 5, not a string. -/
theorem text_not_string_counterexample :
    composeAiMessage noParse 0 "t" "none" numericResponse
      = .ok { id := 0 + 1, text := num (JsNum.fin false 5 0)
              sender := "ai", timestamp := "t", mode := "none"
              isError := none, payloadType := none, payload := none } ∧
    isString (replyMessage noParse 0 "t" "none" numericResponse).text = false ∧
    ¬ ∃ s, (replyMessage noParse 0 "t" "none" numericResponse).text = str s := by
  refine ⟨rfl, rfl, ?_⟩
  rintro ⟨s, hs⟩
  have h : (replyMessage noParse 0 "t" "none" numericResponse).text
      = num (JsNum.fin false 5 0) := rfl
  rw [h] at hs
  cases hs

/-- C13 (amended): the text of the message appended for a decoded body is a string
exactly when the value it is taken from is a string or is falsy, that value being the
title of the cosmic match, else the context of the earth match, else `data.response`
when truthy and `data.message` otherwise; the fallback literals and the text of the
error message are strings. -/
theorem text_is_string_iff (jsonParse : String → Option JsVal) (now : Nat)
    (iso mode : String) (data : JsVal) :
    isString (replyMessage jsonParse now iso mode data).text = true ↔
      (isString (textSource jsonParse data) = true ∨
        (textSource jsonParse data).truthy = false) := by
  unfold replyMessage textSource
  rw [composeAiMessage_eq]
  cases hc : (firstAccepted isCosmicPayload (responseCandidate jsonParse data)
      (messageCandidate jsonParse data) data).isObject
  · cases he : (firstAccepted isEarthPayload (responseCandidate jsonParse data)
        (messageCandidate jsonParse data) data).isObject
    · simp only [Bool.false_eq_true, if_false]
      cases hd : data.isNullish
      · rw [plainText_of_not_nullish data hd]
        simp only [Except.map, plainMessage]
        cases hr : (data.field "response").truthy
        · simp only [Bool.false_eq_true, if_false]
          rw [isString_or_literal]
          simp
        · simp [hr]
      · rw [plainText_nullish data hd]
        have hf : (data.field "response").truthy = false := by
          cases data <;> simp_all [JsVal.isNullish] <;> rfl
        have hm : (data.field "message").truthy = false := by
          cases data <;> simp_all [JsVal.isNullish] <;> rfl
        simp only [Except.map, hf, hm, Bool.false_eq_true, if_false, or_true, iff_true]
        rfl
    · simp only [Bool.false_eq_true, if_false, if_true, earthMessage,
        (earthRecord_fields _).2.2.2.1]
      rw [isString_context_text]
      simp
  · simp only [if_true, cosmicMessage]
    rw [isString_or_literal]
    simp

theorem lookup_of_not_any (props : List (String × JsVal)) (k : String)
    (h : props.any (fun p => p.1 == k) = false) : props.lookup k = none := by
  induction props with
  | nil => rfl
  | cons p ps ih =>
    obtain ⟨a, b⟩ := p
    simp only [List.any_cons, Bool.or_eq_false_iff] at h
    have hne : (k == a) = false := by
      have h1 := h.1
      simp only [beq_eq_false_iff_ne, ne_eq] at h1 ⊢
      exact fun e => h1 e.symm
    simp only [List.lookup, hne]
    exact ih h.2

theorem field_of_not_hasKey (v : JsVal) (k : String) (h : v.hasKey k = false) :
    v.field k = undefined := by
  cases v with
  | obj props =>
    simp only [JsVal.hasKey] at h
    simp [JsVal.field, lookup_of_not_any props k h]
  | arr items =>
    simp only [JsVal.hasKey, Bool.or_eq_false_iff] at h
    obtain ⟨h1, h2⟩ := h
    have hk : k ≠ "length" := by simpa using h1
    simp only [JsVal.field, arrayProp, if_neg hk]
    cases hi : arrayIndex k with
    | none => rfl
    | some i =>
      rw [hi] at h2
      simp only [decide_eq_false_iff_not, not_lt] at h2
      simp [List.getElem?_eq_none h2]
  | _ => rfl

/-- C14 (counterexample): for the non-null object `{"context": 5}` the normaliser
succeeds and the context of the normalised payload is the number 5, not a string. -/
theorem context_not_string_counterexample :
    numericContext.isObject = true ∧
    ∃ p, normalizeEarthPayload numericContext = .ok p ∧
      p.field "context" = num (JsNum.fin false 5 0) ∧
      isString (p.field "context") = false :=
  ⟨rfl, _, rfl, rfl, rfl⟩

/-- C14 (amended): for every non-null object, the context of the normalised earth payload
is the input's context when that is neither absent nor null, and the empty string
otherwise; it is a string exactly when the input's context is a string, null or absent,
and it is the empty string when the input has no context. -/
theorem normalized_context (v : JsVal) (h : v.isObject = true) :
    ∃ p, normalizeEarthPayload v = .ok p ∧
      p.field "context"
        = (if (v.field "context").isNullish then str "" else v.field "context") ∧
      (isString (p.field "context") = true ↔
        (isString (v.field "context") = true ∨ (v.field "context").isNullish = true)) ∧
      (v.hasKey "context" = false → p.field "context" = str "") := by
  have heq := normalizeEarthPayload_eq v
  rw [h] at heq
  simp only [if_true] at heq
  have h4 := (earthRecord_fields v).2.2.2.1
  refine ⟨_, heq, h4, ?_, ?_⟩
  · rw [h4]
    cases hc : v.field "context" <;> simp [isString, JsVal.isNullish]
  · intro hk
    rw [h4, field_of_not_hasKey v "context" hk]
    rfl

theorem normalized_context_witness :
    viewIsTrue.isObject = true ∧ viewIsTrue.hasKey "context" = false ∧
    ∃ p, normalizeEarthPayload viewIsTrue = .ok p ∧
      p.field "context"
        = (if (viewIsTrue.field "context").isNullish then str ""
           else viewIsTrue.field "context") ∧
      (isString (p.field "context") = true ↔
        (isString (viewIsTrue.field "context") = true ∨
          (viewIsTrue.field "context").isNullish = true)) ∧
      (viewIsTrue.hasKey "context" = false → p.field "context" = str "") :=
  ⟨rfl, rfl, normalized_context viewIsTrue rfl⟩

theorem validNumeric_of_isFiniteNum (y : JsVal) (h : isFiniteNum y = true) :
    validNumeric y = true := by
  cases y <;> simp_all [isFiniteNum, validNumeric]

theorem isEarthPayload_earthRecord (v : JsVal) : isEarthPayload (earthRecord v) = .ok true := by
  obtain ⟨-, -, h3, -, h5, h6, h7⟩ := earthRecord_fields v
  have f0 : (JsNum.ofNat 0).isFinite = true := by rfl
  have f3 : (JsNum.ofNat 3).isFinite = true := by rfl
  have hov : ((earthRecord v).field "activeOverlays").isArray = true := by
    rw [h3]; split
    · assumption
    · rfl
  have hlng : (earthRecord v).earthLng = coerceOr v.earthLng (JsNum.ofNat 0) := by
    rw [earthLng_of_lng, h6]
    rw [h6]
    exact isNullish_of_isFiniteNum _ (isFiniteNum_coerceOr _ _ f0)
  have hkeys : earthBaseKeys.all (fun k => (earthRecord v).hasKey k) = true := rfl
  have hobj : (earthRecord v).isObject = true := rfl
  rw [isEarthPayload_eq, hobj, hkeys, hov, h5, hlng, h7,
    validNumeric_of_isFiniteNum _ (isFiniteNum_coerceOr v.earthLat _ f0),
    validNumeric_of_isFiniteNum _ (isFiniteNum_coerceOr v.earthLng _ f0),
    validNumeric_of_isFiniteNum _ (isFiniteNum_coerceOr _ _ f3)]
  rfl

/-- C17: the classifier and the normaliser agree.  For every value accepted by
`isEarthPayload`, `normalizeEarthPayload` substitutes no default: its `lat`, `lng` and
`zoom` are the coerced values of the input's fields and its `activeOverlays` is the
input's array; and the normalised payload is itself accepted by `isEarthPayload`.
Hence the payload of every composed message of payload type `"earth"` satisfies
`isEarthPayload`, with `lat`, `lng` and `zoom` finite numbers. -/
theorem classifier_normalizer_agree (jsonParse : String → Option JsVal) (now : Nat)
    (iso mode : String) :
    (∀ v, isEarthPayload v = .ok true →
      ∃ p, normalizeEarthPayload v = .ok p ∧
        p.earthLat = coerceNum v.earthLat ∧
        ((p.field "view").field "center").field "lng" = coerceNum v.earthLng ∧
        p.earthZoom = coerceNum v.earthZoom ∧
        p.field "activeOverlays" = v.field "activeOverlays" ∧
        (v.field "activeOverlays").isArray = true ∧
        isEarthPayload p = .ok true) ∧
    (∀ data m, composeAiMessage jsonParse now iso mode data = .ok m →
      m.payloadType = some "earth" →
      ∃ p, m.payload = some p ∧ isEarthPayload p = .ok true ∧
        isFiniteNum p.earthLat = true ∧
        isFiniteNum (((p.field "view").field "center").field "lng") = true ∧
        isFiniteNum p.earthZoom = true) := by
  constructor
  · intro v hv
    have hacc := (accepts_iff _ _).2 hv
    have ho := isObject_of_earth v hacc
    have heq := normalizeEarthPayload_eq v
    rw [ho] at heq
    simp only [if_true] at heq
    rw [isEarthPayload_eq] at hv
    simp only [Except.ok.injEq, Bool.and_eq_true] at hv
    obtain ⟨⟨⟨⟨⟨-, -⟩, hov⟩, hlat⟩, hlng⟩, hzoom⟩ := hv
    obtain ⟨-, -, h3, -, h5, h6, h7⟩ := earthRecord_fields v
    refine ⟨_, heq, ?_, ?_, ?_, ?_, hov, isEarthPayload_earthRecord v⟩
    · rw [h5, coerceOr, isFiniteNum_coerceNum, hlat]; rfl
    · rw [h6, coerceOr, isFiniteNum_coerceNum, hlng]; rfl
    · rw [h7, coerceOr, isFiniteNum_coerceNum, hzoom]; rfl
    · rw [h3, hov]; rfl
  · intro data m hm hty
    rw [composeAiMessage_eq] at hm
    split at hm
    · simp only [Except.ok.injEq] at hm
      subst hm
      simp [cosmicMessage] at hty
    · split at hm
      · simp only [Except.ok.injEq] at hm
        subst hm
        obtain ⟨-, -, -, -, h5, h6, h7⟩ := earthRecord_fields
          (firstAccepted isEarthPayload (responseCandidate jsonParse data)
            (messageCandidate jsonParse data) data)
        refine ⟨_, rfl, isEarthPayload_earthRecord _, ?_, ?_, ?_⟩
        · rw [h5]; exact isFiniteNum_coerceOr _ _ rfl
        · rw [h6]; exact isFiniteNum_coerceOr _ _ rfl
        · rw [h7]; exact isFiniteNum_coerceOr _ _ rfl
      · cases hp : plainText data with
        | error e => rw [hp] at hm; cases hm
        | ok t =>
          rw [hp] at hm
          simp only [Except.map, Except.ok.injEq] at hm
          subst hm
          simp [plainMessage] at hty

theorem classifier_normalizer_agree_witness :
    isEarthPayload earthSample = .ok true ∧
    ∃ p, normalizeEarthPayload earthSample = .ok p ∧
      p.earthLat = coerceNum earthSample.earthLat ∧
      ((p.field "view").field "center").field "lng" = coerceNum earthSample.earthLng ∧
      p.earthZoom = coerceNum earthSample.earthZoom ∧
      p.field "activeOverlays" = earthSample.field "activeOverlays" ∧
      (earthSample.field "activeOverlays").isArray = true ∧
      isEarthPayload p = .ok true :=
  ⟨rfl, (classifier_normalizer_agree noParse 0 "t" "earth").1 earthSample rfl⟩

end Chatbot
